import Mathlib

/-!
# SoundRight backend — shallow embedding and verification

This file embeds the business-logic core of the SoundRight rental back
office (Express + SQLite, TypeScript) in Lean 4: document numbering
(`generateQuoteNumber`, `generateInvoiceNumber`, `generateDeliveryNumber`),
line-item total recomputation (`recalculateQuoteTotals`,
`recalculateInvoiceTotals`), the quote/invoice line-item and header CRUD
handlers, and the project-equipment allocation tracker.  The SQLite tables
are embedded as Lean lists, JS numbers as `Rat` (the handlers perform exact
arithmetic on the values they are given; no rounding occurs in the source),
`AUTOINCREMENT` primary keys as explicit counters, and each route handler
as a pure function `DB → ... → Except Err (DB × ...)` mirroring the source
checks in source order.  The `protect` middleware (bearer-token user lookup
plus active check) runs in front of every modelled route, so every handler
starts by looking the acting user up in `users`.
-/

/-- Decimal digits of `n`, least significant first, as characters, with a
fuel argument bounding the recursion depth (`natStr` always supplies
enough fuel).  Helper for `natStr`. -/
def natDigitsRevFuel : Nat → Nat → List Char
  | 0, _ => []
  | fuel + 1, n =>
    if n < 10 then [Nat.digitChar n]
    else Nat.digitChar (n % 10) :: natDigitsRevFuel fuel (n / 10)

/-- Decimal representation of a natural number, most significant digit
first.  Models the JavaScript conversion `String(n)` applied to the
non-negative integers that reach it in the source. -/
def natStr (n : Nat) : List Char := (natDigitsRevFuel (n + 1) n).reverse

/-- Models JavaScript `s.padStart(len, c)`: left-pad to length `len`
(no-op when `s` is already long enough, since `len - length = 0`). -/
def padStart (len : Nat) (c : Char) (s : List Char) : List Char :=
  List.replicate (len - s.length) c ++ s

/-- Models the SQL predicate `s LIKE '<pat>%'` for a literal pattern body
`pat` (no wildcards inside `pat`, as in the source patterns `Q2025-%`):
true iff `pat` is a prefix of `s`. -/
def likeMatch : List Char → List Char → Bool
  | [], _ => true
  | _ :: _, [] => false
  | p :: ps, c :: cs => p == c && likeMatch ps cs

/-- Numeric value of a big-endian decimal digit string. -/
def digitsVal (cs : List Char) : Nat :=
  cs.foldl (fun a c => a * 10 + (c.toNat - 48)) 0

/-- The sequence component of a document number `<PREFIX><year>-<seq>`:
the decimal value of the characters after the first dash. -/
def seqComponent (s : String) : Nat :=
  digitsVal ((s.data.dropWhile (fun c => c != '-')).tail)

/-- Decidable equality of `Except` results, for concrete evaluation. -/
instance {e a : Type} [DecidableEq e] [DecidableEq a] : DecidableEq (Except e a) := fun x y =>
  match x, y with
  | .error u, .error v =>
    if h : u = v then .isTrue (by rw [h]) else .isFalse (by intro hc; cases hc; exact h rfl)
  | .error _, .ok _ => .isFalse (by intro hc; cases hc)
  | .ok _, .error _ => .isFalse (by intro hc; cases hc)
  | .ok u, .ok v =>
    if h : u = v then .isTrue (by rw [h]) else .isFalse (by intro hc; cases hc; exact h rfl)

/-- An API error as produced by `createError(message, statusCode)` in the
source: the message string and the HTTP status code. -/
structure Err where
  message : String
  status : Nat
deriving DecidableEq, Repr

/-- Models `createError` from `middleware/errorHandler`. -/
def createError (message : String) (status : Nat) : Err :=
  { message := message, status := status }

/-- `users.role` (`CHECK (role IN ('admin', 'user', 'manager'))`). -/
inductive Role where
  | admin | manager | user
deriving DecidableEq, Repr

/-- `quotes.status` (`CHECK` constraint and the Joi `valid(...)` list). -/
inductive QuoteStatus where
  | draft | sent | accepted | rejected | expired
deriving DecidableEq, Repr

/-- `invoices.status` (`CHECK` constraint and the Joi `valid(...)` list). -/
inductive InvoiceStatus where
  | draft | sent | paid | overdue | cancelled
deriving DecidableEq, Repr

/-- `projects.status` (`CHECK` constraint and the Joi `valid(...)` list). -/
inductive ProjectStatus where
  | planning | active | completed | cancelled
deriving DecidableEq, Repr

/-- A row of `users` (the columns the modelled handlers read: `protect`
selects `id, role, is_active`, and the ownership checks compare
`created_by` with `req.user.id`). -/
structure User where
  id : Nat
  role : Role
  is_active : Bool
deriving DecidableEq, Repr

/-- A row of `equipment` (the columns the modelled handlers touch:
`serial_number` for the duplicate check, `is_available` for the
allocation tracker). -/
structure Equipment where
  id : Nat
  name : String
  serial_number : Option String
  is_available : Bool
deriving DecidableEq, Repr

/-- A row of `projects` (the columns the modelled handlers read). -/
structure Project where
  id : Nat
  status : ProjectStatus
deriving DecidableEq, Repr

/-- A row of `project_equipment`: one allocation of one equipment unit to
one project; `returned_date IS NULL` (`none`) means the allocation is
still open.  Dates are abstract day numbers. -/
structure ProjectEquipment where
  id : Nat
  project_id : Nat
  equipment_id : Nat
  quantity : Rat
  allocated_date : Nat
  returned_date : Option Nat
deriving DecidableEq, Repr

/-- A row of `quotes` (the columns the modelled handlers touch;
free-text columns that no modelled check reads are omitted). -/
structure Quote where
  id : Nat
  quote_number : String
  project_id : Option Nat
  client_name : String
  tax_rate : Rat
  subtotal : Rat
  tax_amount : Rat
  total_amount : Rat
  status : QuoteStatus
  created_by : Nat
deriving DecidableEq, Repr

/-- A row of `quote_items`. -/
structure QuoteItem where
  id : Nat
  quote_id : Nat
  equipment_id : Option Nat
  description : String
  quantity : Rat
  unit_price : Rat
  total_price : Rat
deriving DecidableEq, Repr

/-- A row of `invoices` (the columns the modelled handlers touch). -/
structure Invoice where
  id : Nat
  invoice_number : String
  project_id : Option Nat
  quote_id : Option Nat
  client_name : String
  tax_rate : Rat
  subtotal : Rat
  tax_amount : Rat
  total_amount : Rat
  status : InvoiceStatus
  created_by : Nat
deriving DecidableEq, Repr

/-- A row of `invoice_items`. -/
structure InvoiceItem where
  id : Nat
  invoice_id : Nat
  equipment_id : Option Nat
  description : String
  quantity : Rat
  unit_price : Rat
  total_price : Rat
deriving DecidableEq, Repr

/-- A row of `delivery_notes` (only the number column matters to the
modelled generator). -/
structure DeliveryNote where
  id : Nat
  delivery_number : String
deriving DecidableEq, Repr

/-- The persistent state: the SQLite tables as lists plus the
`AUTOINCREMENT` counters for the rows the modelled handlers insert. -/
structure DB where
  users : List User
  equipment : List Equipment
  projects : List Project
  project_equipment : List ProjectEquipment
  quotes : List Quote
  quote_items : List QuoteItem
  invoices : List Invoice
  invoice_items : List InvoiceItem
  delivery_notes : List DeliveryNote
  nextQuoteId : Nat
  nextQuoteItemId : Nat
  nextInvoiceItemId : Nat
  nextAllocId : Nat
deriving DecidableEq, Repr

/-- `SELECT ... FROM users WHERE id = ?` (first row). -/
def findUser (db : DB) (uid : Nat) : Option User :=
  db.users.find? (fun u => u.id == uid)

/-- `SELECT ... FROM quotes WHERE id = ?` (first row). -/
def quoteById (db : DB) (qid : Nat) : Option Quote :=
  db.quotes.find? (fun q => q.id == qid)

/-- `SELECT ... FROM invoices WHERE id = ?` (first row). -/
def invoiceById (db : DB) (iid : Nat) : Option Invoice :=
  db.invoices.find? (fun i => i.id == iid)

/-- `SELECT ... FROM projects WHERE id = ?` (first row). -/
def projectById (db : DB) (pid : Nat) : Option Project :=
  db.projects.find? (fun p => p.id == pid)

/-- `SELECT ... FROM equipment WHERE id = ?` (first row). -/
def equipmentById (db : DB) (eid : Nat) : Option Equipment :=
  db.equipment.find? (fun e => e.id == eid)

/-- Pattern body of the per-year `LIKE` filter: `<PREFIX><year>-`. -/
def likePat (pfx : List Char) (year : Nat) : List Char :=
  pfx ++ natStr year ++ ['-']

/-- Common body of the three number generators: count the existing numbers
matching `<PREFIX><year>-%` and format `<PREFIX><year>-` followed by
`String(count + 1).padStart(4, '0')`. -/
def generateDocNumber (pfx : List Char) (year : Nat) (numbers : List String) : String :=
  let pat := likePat pfx year
  let count := (numbers.filter (fun s => likeMatch pat s.data)).length
  String.mk (pat ++ padStart 4 '0' (natStr (count + 1)))

/-- `generateQuoteNumber` from the quotes router: counts
`quotes.quote_number LIKE 'Q<year>-%'`. -/
def generateQuoteNumber (db : DB) (year : Nat) : String :=
  generateDocNumber ['Q'] year (db.quotes.map Quote.quote_number)

/-- `generateInvoiceNumber` from the invoices router: counts
`invoices.invoice_number LIKE 'INV<year>-%'`. -/
def generateInvoiceNumber (db : DB) (year : Nat) : String :=
  generateDocNumber ['I', 'N', 'V'] year (db.invoices.map Invoice.invoice_number)

/-- `generateDeliveryNumber` from the delivery router: counts
`delivery_notes.delivery_number LIKE 'DN<year>-%'`. -/
def generateDeliveryNumber (db : DB) (year : Nat) : String :=
  generateDocNumber ['D', 'N'] year (db.delivery_notes.map DeliveryNote.delivery_number)

/-- `SELECT COALESCE(SUM(total_price), 0) FROM quote_items WHERE quote_id = ?`. -/
def itemsSubtotal (items : List QuoteItem) (qid : Nat) : Rat :=
  ((items.filter (fun it => it.quote_id == qid)).map QuoteItem.total_price).sum

/-- `SELECT COALESCE(SUM(total_price), 0) FROM invoice_items WHERE invoice_id = ?`. -/
def invItemsSubtotal (items : List InvoiceItem) (iid : Nat) : Rat :=
  ((items.filter (fun it => it.invoice_id == iid)).map InvoiceItem.total_price).sum

/-- `recalculateQuoteTotals`: resum the quote's items, read its `tax_rate`,
and persist `subtotal`, `tax_amount = subtotal * (tax_rate / 100)` and
`total_amount = subtotal + tax_amount` on the quote row.  The SQL `UPDATE
... WHERE id = ?` touches every row with that id; each row's own
`tax_rate` is its `SELECT`ed one since ids are primary keys. -/
def recalculateQuoteTotals (db : DB) (quoteId : Nat) : DB :=
  let subtotal := itemsSubtotal db.quote_items quoteId
  { db with quotes := db.quotes.map (fun q =>
      if q.id == quoteId then
        { q with subtotal := subtotal,
                 tax_amount := subtotal * (q.tax_rate / 100),
                 total_amount := subtotal + subtotal * (q.tax_rate / 100) }
      else q) }

/-- `recalculateInvoiceTotals`: the invoice counterpart of
`recalculateQuoteTotals`. -/
def recalculateInvoiceTotals (db : DB) (invoiceId : Nat) : DB :=
  let subtotal := invItemsSubtotal db.invoice_items invoiceId
  { db with invoices := db.invoices.map (fun i =>
      if i.id == invoiceId then
        { i with subtotal := subtotal,
                 tax_amount := subtotal * (i.tax_rate / 100),
                 total_amount := subtotal + subtotal * (i.tax_rate / 100) }
      else i) }

/-- The `protect` middleware after token decoding: look the user up by the
token's id and require the `is_active` flag, else 401. -/
def protect (db : DB) (uid : Nat) : Except Err User :=
  match findUser db uid with
  | none => .error (createError "User not found or inactive" 401)
  | some u =>
    if u.is_active then .ok u
    else .error (createError "User not found or inactive" 401)

/-- Client input for `quoteItemSchema` / `invoiceItemSchema` (the two Joi
schemas are textually identical).  `quantity` is optional because Joi
supplies `default(1)`.  The schemas declare no total-price field, and Joi
rejects unknown keys, so no client-submitted total can reach a handler. -/
structure ItemInput where
  equipmentId : Option Nat
  description : String
  quantity : Option Rat
  unitPrice : Rat
deriving DecidableEq, Repr

/-- A validated line-item input: quantity defaulted and checked. -/
structure ItemValid where
  equipmentId : Option Nat
  description : String
  quantity : Rat
  unitPrice : Rat
deriving DecidableEq, Repr

/-- Joi validation of `quoteItemSchema` / `invoiceItemSchema`:
`description` 1–200 chars, `quantity` an integer ≥ 1 (default 1),
`unitPrice ≥ 0`.  Joi's per-field messages are abstracted into one
400 error. -/
def itemSchemaValidate (raw : ItemInput) : Except Err ItemValid :=
  let q := raw.quantity.getD 1
  if 1 ≤ raw.description.length ∧ raw.description.length ≤ 200
      ∧ q.den = 1 ∧ 1 ≤ q ∧ 0 ≤ raw.unitPrice then
    .ok { equipmentId := raw.equipmentId, description := raw.description,
          quantity := q, unitPrice := raw.unitPrice }
  else .error (createError "ValidationError" 400)

/-- Client input for `quoteSchema` (the fields the modelled checks read;
free-text fields that no modelled behavior depends on are omitted). -/
structure QuoteInput where
  projectId : Option Nat
  clientName : String
  taxRate : Rat
  status : QuoteStatus
deriving DecidableEq, Repr

/-- Joi validation of `quoteSchema`: `clientName` 1–100 chars,
`taxRate` between 0 and 100. -/
def quoteSchemaValidate (raw : QuoteInput) : Except Err QuoteInput :=
  if 1 ≤ raw.clientName.length ∧ raw.clientName.length ≤ 100
      ∧ 0 ≤ raw.taxRate ∧ raw.taxRate ≤ 100 then .ok raw
  else .error (createError "ValidationError" 400)

/-- Client input for `invoiceSchema` (the fields the modelled checks read). -/
structure InvoiceInput where
  projectId : Option Nat
  quoteId : Option Nat
  clientName : String
  taxRate : Rat
  status : InvoiceStatus
deriving DecidableEq, Repr

/-- Joi validation of `invoiceSchema`. -/
def invoiceSchemaValidate (raw : InvoiceInput) : Except Err InvoiceInput :=
  if 1 ≤ raw.clientName.length ∧ raw.clientName.length ≤ 100
      ∧ 0 ≤ raw.taxRate ∧ raw.taxRate ≤ 100 then .ok raw
  else .error (createError "ValidationError" 400)

/-- `POST /api/quotes/:id/items`: validate, 404 on missing quote, 403 for
a non-creator without the admin/manager role, 400 on an accepted quote,
404 on a dangling equipment reference, then insert the item with
`total_price = quantity * unitPrice` computed server-side and recalculate
the quote totals. -/
def addQuoteItem (db : DB) (uid qid : Nat) (raw : ItemInput) :
    Except Err (DB × QuoteItem) :=
  match protect db uid with
  | .error e => .error e
  | .ok user =>
  match itemSchemaValidate raw with
  | .error e => .error e
  | .ok v =>
  match quoteById db qid with
  | none => .error (createError "Quote not found" 404)
  | some quote =>
    if quote.created_by ≠ user.id ∧ user.role ≠ .admin ∧ user.role ≠ .manager then
      .error (createError "Not authorized to modify this quote" 403)
    else if quote.status = .accepted then
      .error (createError "Cannot modify accepted quotes" 400)
    else
      let insert : Except Err (DB × QuoteItem) :=
        let item : QuoteItem :=
          { id := db.nextQuoteItemId, quote_id := qid,
            equipment_id := v.equipmentId, description := v.description,
            quantity := v.quantity, unit_price := v.unitPrice,
            total_price := v.quantity * v.unitPrice }
        let db1 := { db with quote_items := db.quote_items ++ [item],
                             nextQuoteItemId := db.nextQuoteItemId + 1 }
        .ok (recalculateQuoteTotals db1 qid, item)
      match v.equipmentId with
      | some eid =>
        match equipmentById db eid with
        | none => .error (createError "Equipment not found" 404)
        | some _ => insert
      | none => insert

/-- `PUT /api/quotes/:id/items/:itemId`: validate, 404 on missing quote,
400 on an accepted quote, 404 on a missing item, then update the item
(`UPDATE quote_items ... WHERE id = ?`, which leaves `quote_id` alone)
with a recomputed `total_price` and recalculate the quote totals.
No ownership check and no equipment-existence check appear on this route. -/
def updateQuoteItem (db : DB) (uid qid itemId : Nat) (raw : ItemInput) :
    Except Err DB :=
  match protect db uid with
  | .error e => .error e
  | .ok _user =>
  match itemSchemaValidate raw with
  | .error e => .error e
  | .ok v =>
  match quoteById db qid with
  | none => .error (createError "Quote not found" 404)
  | some quote =>
    if quote.status = .accepted then
      .error (createError "Cannot modify accepted quotes" 400)
    else
      match db.quote_items.find? (fun it => it.id == itemId && it.quote_id == qid) with
      | none => .error (createError "Quote item not found" 404)
      | some _ =>
        let items := db.quote_items.map (fun it =>
          if it.id == itemId then
            { it with equipment_id := v.equipmentId, description := v.description,
                      quantity := v.quantity, unit_price := v.unitPrice,
                      total_price := v.quantity * v.unitPrice }
          else it)
        .ok (recalculateQuoteTotals { db with quote_items := items } qid)

/-- `DELETE /api/quotes/:id/items/:itemId`: 404 on missing quote, 400 on
an accepted quote, then `DELETE ... WHERE id = ? AND quote_id = ?` and
recalculate (no ownership check, and no 404 for a missing item). -/
def deleteQuoteItem (db : DB) (uid qid itemId : Nat) : Except Err DB :=
  match protect db uid with
  | .error e => .error e
  | .ok _user =>
  match quoteById db qid with
  | none => .error (createError "Quote not found" 404)
  | some quote =>
    if quote.status = .accepted then
      .error (createError "Cannot modify accepted quotes" 400)
    else
      let items := db.quote_items.filter (fun it => !(it.id == itemId && it.quote_id == qid))
      .ok (recalculateQuoteTotals { db with quote_items := items } qid)

/-- `PUT /api/quotes/:id` (header update): validate, 404 on missing quote,
403 for a non-creator without the admin/manager role, 400 on an accepted
quote, 404 on a dangling project reference, then update the header fields
(including `tax_rate` and `status`) and recalculate the totals. -/
def updateQuote (db : DB) (uid qid : Nat) (raw : QuoteInput) : Except Err DB :=
  match protect db uid with
  | .error e => .error e
  | .ok user =>
  match quoteSchemaValidate raw with
  | .error e => .error e
  | .ok v =>
  match quoteById db qid with
  | none => .error (createError "Quote not found" 404)
  | some existing =>
    if existing.created_by ≠ user.id ∧ user.role ≠ .admin ∧ user.role ≠ .manager then
      .error (createError "Not authorized to modify this quote" 403)
    else if existing.status = .accepted then
      .error (createError "Cannot modify accepted quotes" 400)
    else
      let upd : Except Err DB :=
        let quotes := db.quotes.map (fun q =>
          if q.id == qid then
            { q with project_id := v.projectId, client_name := v.clientName,
                     tax_rate := v.taxRate, status := v.status }
          else q)
        .ok (recalculateQuoteTotals { db with quotes := quotes } qid)
      match v.projectId with
      | some pid =>
        match projectById db pid with
        | none => .error (createError "Project not found" 404)
        | some _ => upd
      | none => upd

/-- `DELETE /api/quotes/:id`: gated by `authorize('admin', 'manager')`,
404 on a missing quote, then delete the row — with no status guard.  The
schema's `ON DELETE CASCADE` on `quote_items.quote_id` removes the line
items. -/
def deleteQuote (db : DB) (uid qid : Nat) : Except Err DB :=
  match protect db uid with
  | .error e => .error e
  | .ok user =>
  if user.role ≠ .admin ∧ user.role ≠ .manager then
    .error (createError "User role is not authorized to access this route" 403)
  else
    match quoteById db qid with
    | none => .error (createError "Quote not found" 404)
    | some _ =>
      .ok { db with quotes := db.quotes.filter (fun q => !(q.id == qid)),
                    quote_items := db.quote_items.filter (fun it => !(it.quote_id == qid)) }

/-- `POST /api/quotes`: validate, 404 on a dangling project reference,
generate the next quote number, insert the quote with the schema defaults
(`subtotal`, `tax_amount`, `total_amount` all 0).  The schema declares
`quote_number VARCHAR(50) UNIQUE NOT NULL`, so the `INSERT` itself fails
with a constraint error when the generated number already exists; the
rejected promise surfaces as a 500 error and no row is created. -/
def createQuote (db : DB) (uid year : Nat) (raw : QuoteInput) :
    Except Err (DB × Quote) :=
  match protect db uid with
  | .error e => .error e
  | .ok user =>
  match quoteSchemaValidate raw with
  | .error e => .error e
  | .ok v =>
  let insert : Except Err (DB × Quote) :=
    let q : Quote :=
      { id := db.nextQuoteId,
        quote_number := generateQuoteNumber db year, project_id := v.projectId,
        client_name := v.clientName, tax_rate := v.taxRate, subtotal := 0,
        tax_amount := 0, total_amount := 0, status := v.status,
        created_by := user.id }
    if db.quotes.any (fun q0 => q0.quote_number == q.quote_number) then
      .error (createError "UNIQUE constraint failed: quotes.quote_number" 500)
    else
      .ok ({ db with quotes := db.quotes ++ [q], nextQuoteId := db.nextQuoteId + 1 }, q)
  match v.projectId with
  | some pid =>
    match projectById db pid with
    | none => .error (createError "Project not found" 404)
    | some _ => insert
  | none => insert

/-- `POST /api/invoices/:id/items`: validate, 404 on missing invoice, 400
on a paid invoice, 404 on a dangling equipment reference, then insert the
item with `total_price = quantity * unitPrice` computed server-side and
recalculate the invoice totals.  Unlike the quote counterpart, this route
performs no ownership check. -/
def addInvoiceItem (db : DB) (uid iid : Nat) (raw : ItemInput) :
    Except Err (DB × InvoiceItem) :=
  match protect db uid with
  | .error e => .error e
  | .ok _user =>
  match itemSchemaValidate raw with
  | .error e => .error e
  | .ok v =>
  match invoiceById db iid with
  | none => .error (createError "Invoice not found" 404)
  | some invoice =>
    if invoice.status = .paid then
      .error (createError "Cannot modify paid invoices" 400)
    else
      let insert : Except Err (DB × InvoiceItem) :=
        let item : InvoiceItem :=
          { id := db.nextInvoiceItemId, invoice_id := iid,
            equipment_id := v.equipmentId, description := v.description,
            quantity := v.quantity, unit_price := v.unitPrice,
            total_price := v.quantity * v.unitPrice }
        let db1 :=
          { db with invoice_items := db.invoice_items ++ [item],
                    nextInvoiceItemId := db.nextInvoiceItemId + 1 }
        .ok (recalculateInvoiceTotals db1 iid, item)
      match v.equipmentId with
      | some eid =>
        match equipmentById db eid with
        | none => .error (createError "Equipment not found" 404)
        | some _ => insert
      | none => insert

/-- `PUT /api/invoices/:id` (header update): validate, 404 on missing
invoice, 403 for a non-creator without the admin/manager role, 400 on a
paid invoice, then update the header fields (the update route, unlike
creation, re-checks neither the project nor the quote reference) and
recalculate the totals. -/
def updateInvoice (db : DB) (uid iid : Nat) (raw : InvoiceInput) : Except Err DB :=
  match protect db uid with
  | .error e => .error e
  | .ok user =>
  match invoiceSchemaValidate raw with
  | .error e => .error e
  | .ok v =>
  match invoiceById db iid with
  | none => .error (createError "Invoice not found" 404)
  | some existing =>
    if existing.created_by ≠ user.id ∧ user.role ≠ .admin ∧ user.role ≠ .manager then
      .error (createError "Not authorized to modify this invoice" 403)
    else if existing.status = .paid then
      .error (createError "Cannot modify paid invoices" 400)
    else
      let invoices := db.invoices.map (fun i =>
        if i.id == iid then
          { i with project_id := v.projectId, quote_id := v.quoteId,
                   client_name := v.clientName, tax_rate := v.taxRate,
                   status := v.status }
        else i)
      .ok (recalculateInvoiceTotals { db with invoices := invoices } iid)

/-- `DELETE /api/invoices/:id`: gated by `authorize('admin', 'manager')`,
404 on a missing invoice, then delete the row — with no status guard.
The schema's `ON DELETE CASCADE` on `invoice_items.invoice_id` removes
the line items. -/
def deleteInvoice (db : DB) (uid iid : Nat) : Except Err DB :=
  match protect db uid with
  | .error e => .error e
  | .ok user =>
  if user.role ≠ .admin ∧ user.role ≠ .manager then
    .error (createError "User role is not authorized to access this route" 403)
  else
    match invoiceById db iid with
    | none => .error (createError "Invoice not found" 404)
    | some _ =>
      .ok { db with invoices := db.invoices.filter (fun i => !(i.id == iid)),
                    invoice_items := db.invoice_items.filter (fun it => !(it.invoice_id == iid)) }

/-- Client input for `equipmentSchema` (the fields the modelled checks
read).  `isAvailable` is optional because Joi supplies `default(true)`. -/
structure EquipmentInput where
  name : String
  serialNumber : Option String
  isAvailable : Option Bool
deriving DecidableEq, Repr

/-- A validated equipment input: `isAvailable` defaulted. -/
structure EquipmentValid where
  name : String
  serialNumber : Option String
  isAvailable : Bool
deriving DecidableEq, Repr

/-- Joi validation of `equipmentSchema`: `name` 1–100 chars, serial number
at most 100 chars, `isAvailable` defaulted to `true`. -/
def equipmentSchemaValidate (raw : EquipmentInput) : Except Err EquipmentValid :=
  if 1 ≤ raw.name.length ∧ raw.name.length ≤ 100
      ∧ (∀ sn ∈ raw.serialNumber, sn.length ≤ 100) then
    .ok { name := raw.name, serialNumber := raw.serialNumber,
          isAvailable := raw.isAvailable.getD true }
  else .error (createError "ValidationError" 400)

/-- `PUT /api/equipment/:id`: gated by `authorize('admin', 'manager')`,
validate, 404 on missing equipment, 400 on a duplicate serial number, then
overwrite every column from the validated input — including
`is_available`, with no check against open allocations. -/
def updateEquipment (db : DB) (uid eid : Nat) (raw : EquipmentInput) : Except Err DB :=
  match protect db uid with
  | .error e => .error e
  | .ok user =>
  if user.role ≠ .admin ∧ user.role ≠ .manager then
    .error (createError "User role is not authorized to access this route" 403)
  else
    match equipmentSchemaValidate raw with
    | .error e => .error e
    | .ok v =>
    match equipmentById db eid with
    | none => .error (createError "Equipment not found" 404)
    | some _ =>
      let upd : Except Err DB :=
        .ok { db with equipment := db.equipment.map (fun e =>
          if e.id == eid then
            { e with name := v.name, serial_number := v.serialNumber,
                     is_available := v.isAvailable }
          else e) }
      match v.serialNumber with
      | some sn =>
        if db.equipment.any (fun e => e.serial_number == some sn && !(e.id == eid)) then
          .error (createError "Equipment with this serial number already exists" 400)
        else upd
      | none => upd

/-- `DELETE /api/equipment/:id`: gated by `authorize('admin')`, 404 on
missing equipment, then blocked with a 400 when any `project_equipment`
row for this equipment joins to a project in `planning` or `active` —
the query carries no `returned_date IS NULL` condition. -/
def deleteEquipment (db : DB) (uid eid : Nat) : Except Err DB :=
  match protect db uid with
  | .error e => .error e
  | .ok user =>
  if user.role ≠ .admin then
    .error (createError "User role is not authorized to access this route" 403)
  else
    match equipmentById db eid with
    | none => .error (createError "Equipment not found" 404)
    | some _ =>
      if db.project_equipment.any (fun pe => pe.equipment_id == eid
          && db.projects.any (fun p => p.id == pe.project_id
              && (p.status == .planning || p.status == .active))) then
        .error (createError "Cannot delete equipment that is allocated to active projects" 400)
      else
        .ok { db with equipment := db.equipment.filter (fun e => !(e.id == eid)) }

/-- Client input for `allocateEquipmentSchema`: a required equipment id
and an optional quantity (Joi `default(1)`). -/
structure AllocInput where
  equipmentId : Nat
  quantity : Option Rat
deriving DecidableEq, Repr

/-- A validated allocation input. -/
structure AllocValid where
  equipmentId : Nat
  quantity : Rat
deriving DecidableEq, Repr

/-- Joi validation of `allocateEquipmentSchema`: quantity an integer ≥ 1
(default 1). -/
def allocSchemaValidate (raw : AllocInput) : Except Err AllocValid :=
  let q := raw.quantity.getD 1
  if q.den = 1 ∧ 1 ≤ q then
    .ok { equipmentId := raw.equipmentId, quantity := q }
  else .error (createError "ValidationError" 400)

/-- `POST /api/projects/:id/equipment` (allocate): validate, 404 on a
missing project, 400 on a completed/cancelled project, 404 on missing
equipment, 400 when the equipment is unavailable, 400 when any
`project_equipment` row for this (project, equipment) pair exists — the
query carries no `returned_date IS NULL` condition — then insert an open
allocation row and set the equipment's `is_available` flag to false. -/
def allocateEquipment (db : DB) (uid pid : Nat) (raw : AllocInput) (today : Nat) :
    Except Err (DB × ProjectEquipment) :=
  match protect db uid with
  | .error e => .error e
  | .ok _user =>
  match allocSchemaValidate raw with
  | .error e => .error e
  | .ok v =>
  match projectById db pid with
  | none => .error (createError "Project not found" 404)
  | some project =>
    if project.status = .completed ∨ project.status = .cancelled then
      .error (createError "Cannot allocate equipment to completed or cancelled projects" 400)
    else
      match equipmentById db v.equipmentId with
      | none => .error (createError "Equipment not found" 404)
      | some equipment =>
        if equipment.is_available = false then
          .error (createError "Equipment is not available for allocation" 400)
        else if (db.project_equipment.find? (fun pe =>
            pe.project_id == pid && pe.equipment_id == v.equipmentId)).isSome then
          .error (createError "Equipment is already allocated to this project" 400)
        else
          let pe : ProjectEquipment :=
            { id := db.nextAllocId, project_id := pid,
              equipment_id := v.equipmentId, quantity := v.quantity,
              allocated_date := today, returned_date := none }
          .ok ({ db with
                  project_equipment := db.project_equipment ++ [pe],
                  equipment := db.equipment.map (fun e =>
                    if e.id == v.equipmentId then { e with is_available := false } else e),
                  nextAllocId := db.nextAllocId + 1 }, pe)

/-- `PUT /api/projects/:id/equipment/:equipmentId` (return): 404 unless an
open allocation row (`returned_date IS NULL`) exists for the pair, then
set `returned_date` on that row (by its primary key) and set the
equipment's `is_available` flag back to true. -/
def returnEquipment (db : DB) (uid pid eid : Nat) (today : Nat) : Except Err DB :=
  match protect db uid with
  | .error e => .error e
  | .ok _user =>
  match db.project_equipment.find? (fun pe =>
      pe.project_id == pid && pe.equipment_id == eid && pe.returned_date.isNone) with
  | none => .error (createError "Equipment allocation not found or already returned" 404)
  | some alloc =>
    .ok { db with
      project_equipment := db.project_equipment.map (fun pe =>
        if pe.id == alloc.id then { pe with returned_date := some today } else pe),
      equipment := db.equipment.map (fun e =>
        if e.id == eid then { e with is_available := true } else e) }

/-- The database state a request leaves behind: the new state on success,
the untouched old state when the handler rejected the request before any
write (every modelled handler performs all its checks before its first
write). -/
def runDB (db : DB) (r : Except Err DB) : DB :=
  match r with
  | .ok db2 => db2
  | .error _ => db

/-- `runDB` for handlers that also return the created row. -/
def runDBP {α : Type} (db : DB) (r : Except Err (DB × α)) : DB :=
  match r with
  | .ok (db2, _) => db2
  | .error _ => db

theorem digitChar_val {d : Nat} (h : d < 10) : (Nat.digitChar d).toNat - 48 = d := by
  interval_cases d <;> rfl

theorem digitChar_ne_dash {d : Nat} (h : d < 10) : Nat.digitChar d ≠ '-' := by
  interval_cases d <;> decide

theorem natDigitsRevFuel_foldr :
    ∀ fuel n : Nat, n < fuel →
      (natDigitsRevFuel fuel n).foldr (fun c acc => acc * 10 + (c.toNat - 48)) 0 = n := by
  intro fuel
  induction fuel with
  | zero => omega
  | succ f ih =>
    intro n h
    rw [natDigitsRevFuel]
    split
    · next h10 => simp [digitChar_val h10]
    · next h10 =>
      have hdiv : n / 10 < f := by omega
      rw [List.foldr_cons, ih (n / 10) hdiv, digitChar_val (Nat.mod_lt _ (by omega))]
      omega

theorem digitsVal_natStr (n : Nat) : digitsVal (natStr n) = n := by
  unfold digitsVal natStr
  rw [List.foldl_reverse]
  exact natDigitsRevFuel_foldr (n + 1) n (Nat.lt_succ_self n)

theorem natDigitsRevFuel_ne_dash :
    ∀ fuel n : Nat, ∀ c ∈ natDigitsRevFuel fuel n, c ≠ '-' := by
  intro fuel
  induction fuel with
  | zero => intro n c hc; simp [natDigitsRevFuel] at hc
  | succ f ih =>
    intro n c hc
    rw [natDigitsRevFuel] at hc
    split at hc
    · next h =>
      simp only [List.mem_singleton] at hc
      subst hc
      exact digitChar_ne_dash h
    · next h =>
      rcases List.mem_cons.mp hc with hc | hc
      · subst hc
        exact digitChar_ne_dash (Nat.mod_lt _ (by omega))
      · exact ih (n / 10) c hc

theorem natStr_ne_dash (n : Nat) : ∀ c ∈ natStr n, c ≠ '-' := by
  intro c hc
  exact natDigitsRevFuel_ne_dash (n + 1) n c (List.mem_reverse.mp hc)

theorem likeMatch_self_append (p r : List Char) : likeMatch p (p ++ r) = true := by
  induction p with
  | nil => rfl
  | cons a as ih => simp [likeMatch, ih]

theorem dropWhile_append_of_forall {p : Char → Bool} {l1 l2 : List Char}
    (h : ∀ c ∈ l1, p c = true) : (l1 ++ l2).dropWhile p = l2.dropWhile p := by
  induction l1 with
  | nil => rfl
  | cons a as ih =>
    rw [List.cons_append, List.dropWhile_cons, h a (List.mem_cons_self a as)]
    exact ih (fun c hc => h c (List.mem_cons_of_mem a hc))

theorem digitsVal_replicate_zero (k : Nat) (l : List Char) :
    digitsVal (List.replicate k '0' ++ l) = digitsVal l := by
  unfold digitsVal
  rw [List.foldl_append]
  have hz : List.foldl (fun a c => a * 10 + (c.toNat - 48)) 0 (List.replicate k '0') = 0 := by
    induction k with
    | zero => rfl
    | succ m ihm => rw [List.replicate_succ, List.foldl_cons]; simpa using ihm
  rw [hz]

theorem digitsVal_padStart (n : Nat) :
    digitsVal (padStart 4 '0' (natStr n)) = n := by
  unfold padStart
  rw [digitsVal_replicate_zero]
  exact digitsVal_natStr n

theorem seqComponent_pat_append (pfx : List Char) (year : Nat) (tl : List Char)
    (hp : ∀ c ∈ pfx, c ≠ '-') :
    seqComponent (String.mk (likePat pfx year ++ tl)) = digitsVal tl := by
  unfold seqComponent likePat
  show digitsVal (((pfx ++ natStr year ++ ['-'] ++ tl).dropWhile fun c => c != '-').tail) = _
  have hassoc : pfx ++ natStr year ++ ['-'] ++ tl = (pfx ++ natStr year) ++ ('-' :: tl) := by
    simp [List.append_assoc]
  rw [hassoc, dropWhile_append_of_forall]
  · rw [List.dropWhile_cons]
    simp
  · intro c hc
    rcases List.mem_append.mp hc with hc | hc
    · simp [hp c hc]
    · simp [natStr_ne_dash year c hc]

/-- The generated number is the pattern body followed by the padded
sequence digits, and its sequence component is `count + 1`. -/
theorem seqComponent_generateDocNumber (pfx : List Char) (year : Nat)
    (numbers : List String) (hp : ∀ c ∈ pfx, c ≠ '-') :
    seqComponent (generateDocNumber pfx year numbers) =
      (numbers.filter (fun s => likeMatch (likePat pfx year) s.data)).length + 1 := by
  unfold generateDocNumber
  rw [seqComponent_pat_append pfx year _ hp]
  exact digitsVal_padStart _

/-- The generated number itself matches the `LIKE` pattern it was counted
against. -/
theorem likeMatch_generateDocNumber (pfx : List Char) (year : Nat)
    (numbers : List String) :
    likeMatch (likePat pfx year) (generateDocNumber pfx year numbers).data = true := by
  unfold generateDocNumber
  exact likeMatch_self_append _ _

theorem likeMatch_eq_take (p : List Char) : ∀ l : List Char,
    likeMatch p l = decide (l.take p.length = p) := by
  induction p with
  | nil => intro l; simp [likeMatch]
  | cons a as ih =>
    intro l
    cases l with
    | nil => simp [likeMatch]
    | cons b bs =>
      simp only [likeMatch, List.length_cons, List.take_succ_cons, ih bs]
      by_cases hab : a = b
      · subst hab; simp
      · have h1 : (a == b) = false := beq_eq_false_iff_ne.mpr hab
        have h2 : decide (b = a) = false := decide_eq_false (fun h => hab h.symm)
        simp [h1, h2]

/-- Written from the spec sentence: the count of existing documents of the
type already carrying a number matching `<PREFIX><year>-%`, expressed as
a literal prefix test. -/
def spec_countMatching (numbers : List String) (pat : List Char) : Nat :=
  (numbers.filter (fun s => decide (s.data.take pat.length = pat))).length

/-- Written from the spec sentence: a 4-digit, zero-padded rendering of a
decimal digit string. -/
def spec_zeroPad4 (ds : List Char) : List Char :=
  if 4 ≤ ds.length then ds else List.replicate (4 - ds.length) '0' ++ ds

/-- Written from the spec sentence: `<PREFIX><year>-<seq>` where `seq` is
the 1-based, 4-digit zero-padded counter `spec_countMatching + 1`. -/
def spec_docNumber (pfx : List Char) (year : Nat) (numbers : List String) : String :=
  let pat := pfx ++ natStr year ++ ['-']
  String.mk (pat ++ spec_zeroPad4 (natStr (spec_countMatching numbers pat + 1)))

theorem padStart_eq_spec_zeroPad4 (ds : List Char) :
    padStart 4 '0' ds = spec_zeroPad4 ds := by
  unfold padStart spec_zeroPad4
  split
  · next h =>
    have hz : 4 - ds.length = 0 := by omega
    simp [hz]
  · rfl

theorem filter_likeMatch_eq_spec (numbers : List String) (pat : List Char) :
    (numbers.filter (fun s => likeMatch pat s.data)).length =
      spec_countMatching numbers pat := by
  unfold spec_countMatching
  congr 1
  exact List.filter_congr (fun s _ => likeMatch_eq_take pat s.data)

/-- C3: for each document type (quote `Q`, invoice `INV`, delivery note
`DN`), the generator returns `<PREFIX><year>-<seq>` where `seq` is the
count of existing rows of that type whose number matches
`<PREFIX><year>-%`, plus one, rendered as a 4-digit zero-padded decimal —
stated as equality with `spec_docNumber`, written from the spec's words. -/
theorem generateNumber_matches_spec (db : DB) (year : Nat) :
    generateQuoteNumber db year =
        spec_docNumber ['Q'] year (db.quotes.map Quote.quote_number)
    ∧ generateInvoiceNumber db year =
        spec_docNumber ['I', 'N', 'V'] year (db.invoices.map Invoice.invoice_number)
    ∧ generateDeliveryNumber db year =
        spec_docNumber ['D', 'N'] year (db.delivery_notes.map DeliveryNote.delivery_number) := by
  refine ⟨?_, ?_, ?_⟩ <;>
    simp only [generateQuoteNumber, generateInvoiceNumber, generateDeliveryNumber,
      generateDocNumber, spec_docNumber, likePat, filter_likeMatch_eq_spec,
      padStart_eq_spec_zeroPad4]

/-- The count the quote-number generator reads: rows of `quotes` whose
number matches `Q<year>-%`. -/
def quoteMatchCount (db : DB) (year : Nat) : Nat :=
  (db.quotes.filter (fun q => likeMatch (likePat ['Q'] year) q.quote_number.data)).length

theorem quoteMatchCount_map (db : DB) (year : Nat) :
    ((db.quotes.map Quote.quote_number).filter
      (fun s => likeMatch (likePat ['Q'] year) s.data)).length = quoteMatchCount db year := by
  unfold quoteMatchCount
  rw [List.filter_map, List.length_map]
  rfl

theorem generateQuoteNumber_eq_count (db : DB) (year : Nat) :
    generateQuoteNumber db year =
      String.mk (likePat ['Q'] year ++ padStart 4 '0' (natStr (quoteMatchCount db year + 1))) := by
  simp only [generateQuoteNumber, generateDocNumber]
  rw [quoteMatchCount_map]

theorem seqComponent_generateQuoteNumber (db : DB) (year : Nat) :
    seqComponent (generateQuoteNumber db year) = quoteMatchCount db year + 1 := by
  rw [generateQuoteNumber_eq_count,
    seqComponent_pat_append ['Q'] year _ (by decide), digitsVal_padStart]

theorem likeMatch_generateQuoteNumber (db : DB) (year : Nat) :
    likeMatch (likePat ['Q'] year) (generateQuoteNumber db year).data = true := by
  unfold generateQuoteNumber
  exact likeMatch_generateDocNumber _ _ _

theorem createQuote_ok_shape {db db2 : DB} {uid year : Nat} {raw : QuoteInput} {q : Quote}
    (h : createQuote db uid year raw = .ok (db2, q)) :
    q.quote_number = generateQuoteNumber db year ∧ db2.quotes = db.quotes ++ [q] := by
  unfold createQuote at h
  cases hu : protect db uid with
  | error e => simp [hu] at h
  | ok user =>
    simp only [hu] at h
    cases hv : quoteSchemaValidate raw with
    | error e => simp [hv] at h
    | ok v =>
      simp only [hv] at h
      cases hpid : v.projectId with
      | none =>
        simp only [hpid] at h
        split at h
        · simp at h
        · simp only [Except.ok.injEq, Prod.mk.injEq] at h
          obtain ⟨hdb, hq⟩ := h
          subst hdb; subst hq
          exact ⟨rfl, rfl⟩
      | some pid =>
        simp only [hpid] at h
        cases hp : projectById db pid with
        | none => simp [hp] at h
        | some proj =>
          simp only [hp] at h
          split at h
          · simp at h
          · simp only [Except.ok.injEq, Prod.mk.injEq] at h
            obtain ⟨hdb, hq⟩ := h
            subst hdb; subst hq
            exact ⟨rfl, rfl⟩

theorem quoteMatchCount_createQuote {db db2 : DB} {uid year : Nat}
    {raw : QuoteInput} {q : Quote}
    (h : createQuote db uid year raw = .ok (db2, q)) :
    quoteMatchCount db2 year = quoteMatchCount db year + 1
    ∧ seqComponent q.quote_number = quoteMatchCount db year + 1 := by
  obtain ⟨hnum, hquotes⟩ := createQuote_ok_shape h
  constructor
  · show (db2.quotes.filter _).length = _
    rw [hquotes, List.filter_append, List.length_append]
    have hm : likeMatch (likePat ['Q'] year) q.quote_number.data = true := by
      rw [hnum]; exact likeMatch_generateQuoteNumber db year
    simp [List.filter, hm, quoteMatchCount]
  · rw [hnum]
    exact seqComponent_generateQuoteNumber db year

/-- A serial execution of quote creations from state `db` to a final
state: the list collects the quote numbers assigned, in order.  Each step
is one successful `POST /api/quotes` request. -/
inductive QuoteCreateTrace (year : Nat) : DB → List String → DB → Prop where
  | nil (db : DB) : QuoteCreateTrace year db [] db
  | cons {db db1 db2 : DB} {q : Quote} {ns : List String} (uid : Nat) (raw : QuoteInput)
      (hstep : createQuote db uid year raw = .ok (db1, q))
      (htrace : QuoteCreateTrace year db1 ns db2) :
      QuoteCreateTrace year db (q.quote_number :: ns) db2

theorem quoteTrace_facts {year : Nat} {db db2 : DB} {ns : List String}
    (h : QuoteCreateTrace year db ns db2) :
    (∀ m ∈ ns, quoteMatchCount db year < seqComponent m)
    ∧ List.Pairwise (fun a b => a ≠ b ∧ seqComponent a < seqComponent b) ns := by
  induction h with
  | nil db => simp
  | cons uid raw hstep htrace ih =>
    obtain ⟨hc, hs⟩ := quoteMatchCount_createQuote hstep
    obtain ⟨ih1, ih2⟩ := ih
    refine ⟨?_, ?_⟩
    · intro m hm
      rcases List.mem_cons.mp hm with hm | hm
      · rw [hm, hs]; omega
      · have := ih1 m hm
        rw [hc] at this
        omega
    · refine List.Pairwise.cons ?_ ih2
      intro b hb
      have hlt := ih1 b hb
      rw [hc] at hlt
      refine ⟨fun heq => ?_, by omega⟩
      rw [heq] at hs
      omega

/-- C4, amended: in a serial execution consisting only of successful quote
creations, the quote numbers generated for the same year are pairwise
distinct and strictly increasing in their sequence component, and when no
number for that year exists yet, the first one generated carries sequence
`0001`.  (The original claim, quantifying over *all* serial operation
sequences, fails because deleting a quote shrinks the `COUNT(*)`-based
counter; see the counterexample.) -/
theorem quoteNumbers_serial_creations {year : Nat} {db db2 : DB} {ns : List String}
    (h : QuoteCreateTrace year db ns db2) :
    List.Pairwise (fun a b => a ≠ b ∧ seqComponent a < seqComponent b) ns
    ∧ (quoteMatchCount db year = 0 →
        ∀ m ∈ ns.head?, m = String.mk (likePat ['Q'] year ++ ['0', '0', '0', '1'])) := by
  refine ⟨(quoteTrace_facts h).2, ?_⟩
  intro h0 m hm
  cases h with
  | nil db => simp at hm
  | cons uid raw hstep htrace =>
    simp only [List.head?_cons, Option.mem_def, Option.some.injEq] at hm
    obtain ⟨hnum, _⟩ := createQuote_ok_shape hstep
    rw [generateQuoteNumber_eq_count, h0] at hnum
    rw [← hm, hnum]
    congr 1

/-- Acting user for the concrete numbering scenarios. -/
def c4User : User := ⟨9, .admin, true⟩

/-- Empty database with one active admin user. -/
def c4Db0 : DB := ⟨[c4User], [], [], [], [], [], [], [], [], 1, 1, 1, 1⟩

/-- A well-formed quote creation request body. -/
def c4Raw : QuoteInput := ⟨none, "Client", 0, .draft⟩

/-- The quote created by the first request. -/
def c4Q1 : Quote := ⟨1, "Q2025-0001", none, "Client", 0, 0, 0, 0, .draft, 9⟩

/-- State after the first creation. -/
def c4Db1 : DB := ⟨[c4User], [], [], [], [c4Q1], [], [], [], [], 2, 1, 1, 1⟩

/-- The quote created by the second request. -/
def c4Q2 : Quote := ⟨2, "Q2025-0002", none, "Client", 0, 0, 0, 0, .draft, 9⟩

/-- State after the second creation. -/
def c4Db2 : DB := ⟨[c4User], [], [], [], [c4Q1, c4Q2], [], [], [], [], 3, 1, 1, 1⟩

/-- State after deleting quote 2 (the highest-numbered quote,
`Q2025-0002`). -/
def c4Db3 : DB := ⟨[c4User], [], [], [], [c4Q1], [], [], [], [], 3, 1, 1, 1⟩

/-- The quote created by the request that follows the deletion: only
`Q2025-0001` is left to count, so it receives the number `Q2025-0002`
again — and, the old row being gone, the `UNIQUE` constraint does not
stop the insert. -/
def c4Q3 : Quote := ⟨3, "Q2025-0002", none, "Client", 0, 0, 0, 0, .draft, 9⟩

/-- State after the third creation. -/
def c4Db4 : DB := ⟨[c4User], [], [], [], [c4Q1, c4Q3], [], [], [], [], 4, 1, 1, 1⟩

theorem c4_trace :
    QuoteCreateTrace 2025 c4Db0 ["Q2025-0001", "Q2025-0002"] c4Db2 :=
  @QuoteCreateTrace.cons 2025 c4Db0 c4Db1 c4Db2 c4Q1 ["Q2025-0002"] 9 c4Raw
    (by decide)
    (@QuoteCreateTrace.cons 2025 c4Db1 c4Db2 c4Db2 c4Q2 [] 9 c4Raw
      (by decide)
      (QuoteCreateTrace.nil c4Db2))

/-- Witness: a concrete serial run of two quote creations in an empty
database, instantiating `quoteNumbers_serial_creations`. -/
theorem quoteNumbers_serial_creations_witness :
    List.Pairwise (fun a b => a ≠ b ∧ seqComponent a < seqComponent b)
      ["Q2025-0001", "Q2025-0002"]
    ∧ (quoteMatchCount c4Db0 2025 = 0 →
        ∀ m ∈ (["Q2025-0001", "Q2025-0002"] : List String).head?,
          m = String.mk (likePat ['Q'] 2025 ++ ['0', '0', '0', '1'])) :=
  quoteNumbers_serial_creations c4_trace

/-- Counterexample to C4 as stated: the serial operation sequence
create, create, delete-the-second-quote, create — all four requests
succeed — hands the numbers `Q2025-0001`, `Q2025-0002`, `Q2025-0002` to
the three created quotes, so numbers generated serially within one year
are not pairwise distinct once a delete occurs: the generator recounts
`COUNT(*) ... LIKE 'Q2025-%'`, the deletion shrinks that count, and,
because the deleted quote was the one carrying `Q2025-0002`, the
`UNIQUE` constraint on `quote_number` does not block the re-issued
number. -/
theorem quoteNumbers_serial_counterexample :
    createQuote c4Db0 9 2025 c4Raw = .ok (c4Db1, c4Q1)
    ∧ createQuote c4Db1 9 2025 c4Raw = .ok (c4Db2, c4Q2)
    ∧ deleteQuote c4Db2 9 2 = .ok c4Db3
    ∧ createQuote c4Db3 9 2025 c4Raw = .ok (c4Db4, c4Q3)
    ∧ c4Q2.quote_number = "Q2025-0002"
    ∧ c4Q3.quote_number = "Q2025-0002" := by
  decide

/-- The derived-field equations for one quote row against an item table:
`subtotal = Σ total_price` of its items, `tax_amount = subtotal *
(tax_rate / 100)`, `total_amount = subtotal + tax_amount`. -/
def quoteTotalsOk (items : List QuoteItem) (q : Quote) : Prop :=
  q.subtotal = itemsSubtotal items q.id
  ∧ q.tax_amount = q.subtotal * (q.tax_rate / 100)
  ∧ q.total_amount = q.subtotal + q.tax_amount

/-- The derived-field equations for one invoice row. -/
def invoiceTotalsOk (items : List InvoiceItem) (i : Invoice) : Prop :=
  i.subtotal = invItemsSubtotal items i.id
  ∧ i.tax_amount = i.subtotal * (i.tax_rate / 100)
  ∧ i.total_amount = i.subtotal + i.tax_amount

/-- The document-totals invariant over the whole state. -/
def totalsInv (db : DB) : Prop :=
  (∀ q ∈ db.quotes, quoteTotalsOk db.quote_items q)
  ∧ (∀ i ∈ db.invoices, invoiceTotalsOk db.invoice_items i)

/-- Line-item ids are unique — the `INTEGER PRIMARY KEY AUTOINCREMENT`
constraint of `quote_items` and `invoice_items`. -/
def itemIdsNodup (db : DB) : Prop :=
  (db.quote_items.map QuoteItem.id).Nodup
  ∧ (db.invoice_items.map InvoiceItem.id).Nodup

theorem totalsInv_recalcQuote (db : DB) (qid : Nat)
    (hq : ∀ q ∈ db.quotes, q.id ≠ qid → quoteTotalsOk db.quote_items q)
    (hi : ∀ i ∈ db.invoices, invoiceTotalsOk db.invoice_items i) :
    totalsInv (recalculateQuoteTotals db qid) := by
  unfold totalsInv recalculateQuoteTotals
  constructor
  · intro q2 hq2
    simp only [List.mem_map] at hq2
    obtain ⟨q, hqmem, rfl⟩ := hq2
    by_cases hid : q.id = qid
    · simp only [hid, beq_self_eq_true, if_true]
      exact ⟨rfl, rfl, rfl⟩
    · have hbeq : (q.id == qid) = false := beq_eq_false_iff_ne.mpr hid
      simp only [hbeq, Bool.false_eq_true, if_false]
      exact hq q hqmem hid
  · intro i hi2
    exact hi i hi2

theorem totalsInv_recalcInvoice (db : DB) (iid : Nat)
    (hq : ∀ q ∈ db.quotes, quoteTotalsOk db.quote_items q)
    (hi : ∀ i ∈ db.invoices, i.id ≠ iid → invoiceTotalsOk db.invoice_items i) :
    totalsInv (recalculateInvoiceTotals db iid) := by
  unfold totalsInv recalculateInvoiceTotals
  constructor
  · intro q hq2
    exact hq q hq2
  · intro i2 hi2
    simp only [List.mem_map] at hi2
    obtain ⟨i, himem, rfl⟩ := hi2
    by_cases hid : i.id = iid
    · simp only [hid, beq_self_eq_true, if_true]
      exact ⟨rfl, rfl, rfl⟩
    · have hbeq : (i.id == iid) = false := beq_eq_false_iff_ne.mpr hid
      simp only [hbeq, Bool.false_eq_true, if_false]
      exact hi i himem hid

theorem itemsSubtotal_append_ne (items : List QuoteItem) (it : QuoteItem) (i : Nat)
    (h : it.quote_id ≠ i) : itemsSubtotal (items ++ [it]) i = itemsSubtotal items i := by
  unfold itemsSubtotal
  rw [List.filter_append]
  have hf : List.filter (fun x => x.quote_id == i) [it] = [] := by
    simp [List.filter, beq_eq_false_iff_ne.mpr h]
  rw [hf, List.append_nil]

theorem invItemsSubtotal_append_ne (items : List InvoiceItem) (it : InvoiceItem) (i : Nat)
    (h : it.invoice_id ≠ i) : invItemsSubtotal (items ++ [it]) i = invItemsSubtotal items i := by
  unfold invItemsSubtotal
  rw [List.filter_append]
  have hf : List.filter (fun x => x.invoice_id == i) [it] = [] := by
    simp [List.filter, beq_eq_false_iff_ne.mpr h]
  rw [hf, List.append_nil]

theorem itemsSubtotal_update_other (items : List QuoteItem) (itemId i : Nat) (v : ItemValid)
    (hsafe : ∀ it ∈ items, it.id = itemId → it.quote_id ≠ i) :
    itemsSubtotal (items.map (fun it =>
      if it.id == itemId then
        { it with equipment_id := v.equipmentId, description := v.description,
                  quantity := v.quantity, unit_price := v.unitPrice,
                  total_price := v.quantity * v.unitPrice }
      else it)) i = itemsSubtotal items i := by
  unfold itemsSubtotal
  induction items with
  | nil => rfl
  | cons a as ih =>
    have ih2 := ih (fun it hit => hsafe it (List.mem_cons_of_mem a hit))
    simp only [List.map_cons, List.filter_cons]
    by_cases hid : a.id = itemId
    · have hq : a.quote_id ≠ i := hsafe a (List.mem_cons_self a as) hid
      have hbq : (a.quote_id == i) = false := beq_eq_false_iff_ne.mpr hq
      simp only [hid, beq_self_eq_true, if_true, hbq, Bool.false_eq_true, if_false]
      exact ih2
    · have hbeq : (a.id == itemId) = false := beq_eq_false_iff_ne.mpr hid
      simp only [hbeq, Bool.false_eq_true, if_false]
      by_cases hq : a.quote_id = i
      · have hbq : (a.quote_id == i) = true := beq_iff_eq.mpr hq
        simp only [hbq, if_true, List.map_cons, List.sum_cons]
        rw [ih2]
      · have hbq : (a.quote_id == i) = false := beq_eq_false_iff_ne.mpr hq
        simp only [hbq, Bool.false_eq_true, if_false]
        exact ih2

theorem itemsSubtotal_filter_del (items : List QuoteItem) (itemId qid i : Nat)
    (h : qid ≠ i) :
    itemsSubtotal (items.filter (fun it => !(it.id == itemId && it.quote_id == qid))) i
      = itemsSubtotal items i := by
  unfold itemsSubtotal
  induction items with
  | nil => rfl
  | cons a as ih =>
    simp only [List.filter_cons]
    by_cases hc : (a.id == itemId && a.quote_id == qid) = true
    · have hq : a.quote_id = qid := beq_iff_eq.mp ((Bool.and_eq_true _ _).mp hc).2
      have hbq : (a.quote_id == i) = false := beq_eq_false_iff_ne.mpr (by
        rw [hq]; exact h)
      simp only [hc, Bool.not_true, Bool.false_eq_true, if_false, hbq]
      exact ih
    · simp only [Bool.not_eq_true] at hc
      simp only [hc, Bool.not_false, if_true, List.filter_cons]
      by_cases hq : (a.quote_id == i) = true
      · simp only [hq, if_true, List.map_cons, List.sum_cons]
        rw [ih]
      · simp only [Bool.not_eq_true] at hq
        simp only [hq, Bool.false_eq_true, if_false]
        exact ih

theorem addQuoteItem_ok_shape {db db2 : DB} {uid qid : Nat} {raw : ItemInput}
    {item : QuoteItem} (h : addQuoteItem db uid qid raw = .ok (db2, item)) :
    ∃ v : ItemValid, itemSchemaValidate raw = .ok v
      ∧ item =
          { id := db.nextQuoteItemId, quote_id := qid,
            equipment_id := v.equipmentId, description := v.description,
            quantity := v.quantity, unit_price := v.unitPrice,
            total_price := v.quantity * v.unitPrice }
      ∧ db2 = recalculateQuoteTotals
          { db with quote_items := db.quote_items ++ [item],
                    nextQuoteItemId := db.nextQuoteItemId + 1 } qid := by
  unfold addQuoteItem at h
  cases hu : protect db uid with
  | error e => simp [hu] at h
  | ok user =>
    simp only [hu] at h
    cases hv : itemSchemaValidate raw with
    | error e => simp [hv] at h
    | ok v =>
      simp only [hv] at h
      cases hq : quoteById db qid with
      | none => simp [hq] at h
      | some quote =>
        simp only [hq] at h
        split at h
        · simp at h
        · split at h
          · simp at h
          · cases heq : v.equipmentId with
            | some eid =>
              simp only [heq] at h
              cases he : equipmentById db eid with
              | none => simp [he] at h
              | some eqp =>
                simp only [he, Except.ok.injEq, Prod.mk.injEq] at h
                obtain ⟨hdb, hit⟩ := h
                subst hit; subst hdb
                refine ⟨v, rfl, ?_, rfl⟩
                rw [heq]
            | none =>
              simp only [heq, Except.ok.injEq, Prod.mk.injEq] at h
              obtain ⟨hdb, hit⟩ := h
              subst hit; subst hdb
              refine ⟨v, rfl, ?_, rfl⟩
              rw [heq]

theorem updateQuoteItem_ok_shape {db db2 : DB} {uid qid itemId : Nat} {raw : ItemInput}
    (h : updateQuoteItem db uid qid itemId raw = .ok db2) :
    ∃ v : ItemValid, ∃ quote : Quote, ∃ it0 : QuoteItem,
      itemSchemaValidate raw = .ok v
      ∧ quoteById db qid = some quote
      ∧ quote.status ≠ .accepted
      ∧ db.quote_items.find? (fun it => it.id == itemId && it.quote_id == qid) = some it0
      ∧ db2 = recalculateQuoteTotals
          { db with quote_items := db.quote_items.map (fun it =>
              if it.id == itemId then
                { it with equipment_id := v.equipmentId, description := v.description,
                          quantity := v.quantity, unit_price := v.unitPrice,
                          total_price := v.quantity * v.unitPrice }
              else it) } qid := by
  unfold updateQuoteItem at h
  cases hu : protect db uid with
  | error e => simp [hu] at h
  | ok user =>
    simp only [hu] at h
    cases hv : itemSchemaValidate raw with
    | error e => simp [hv] at h
    | ok v =>
      simp only [hv] at h
      cases hq : quoteById db qid with
      | none => simp [hq] at h
      | some quote =>
        simp only [hq] at h
        split at h
        · simp at h
        · next hstatus =>
          cases hit : db.quote_items.find? (fun it => it.id == itemId && it.quote_id == qid) with
          | none => simp [hit] at h
          | some it0 =>
            simp only [hit, Except.ok.injEq] at h
            subst h
            exact ⟨v, quote, it0, rfl, rfl, hstatus, rfl, rfl⟩

theorem deleteQuoteItem_ok_shape {db db2 : DB} {uid qid itemId : Nat}
    (h : deleteQuoteItem db uid qid itemId = .ok db2) :
    ∃ quote : Quote,
      quoteById db qid = some quote
      ∧ quote.status ≠ .accepted
      ∧ db2 = recalculateQuoteTotals
          { db with quote_items := db.quote_items.filter (fun it =>
              !(it.id == itemId && it.quote_id == qid)) } qid := by
  unfold deleteQuoteItem at h
  cases hu : protect db uid with
  | error e => simp [hu] at h
  | ok user =>
    simp only [hu] at h
    cases hq : quoteById db qid with
    | none => simp [hq] at h
    | some quote =>
      simp only [hq] at h
      split at h
      · simp at h
      · next hstatus =>
        simp only [Except.ok.injEq] at h
        subst h
        exact ⟨quote, rfl, hstatus, rfl⟩

theorem updateQuote_ok_shape {db db2 : DB} {uid qid : Nat} {raw : QuoteInput}
    (h : updateQuote db uid qid raw = .ok db2) :
    ∃ v : QuoteInput,
      quoteSchemaValidate raw = .ok v
      ∧ db2 = recalculateQuoteTotals
          { db with quotes := db.quotes.map (fun q =>
              if q.id == qid then
                { q with project_id := v.projectId, client_name := v.clientName,
                         tax_rate := v.taxRate, status := v.status }
              else q) } qid := by
  unfold updateQuote at h
  cases hu : protect db uid with
  | error e => simp [hu] at h
  | ok user =>
    simp only [hu] at h
    cases hv : quoteSchemaValidate raw with
    | error e => simp [hv] at h
    | ok v =>
      simp only [hv] at h
      cases hq : quoteById db qid with
      | none => simp [hq] at h
      | some existing =>
        simp only [hq] at h
        split at h
        · simp at h
        · split at h
          · simp at h
          · cases hpid : v.projectId with
            | some pid =>
              simp only [hpid] at h
              cases hp : projectById db pid with
              | none => simp [hp] at h
              | some proj =>
                simp only [hp, Except.ok.injEq] at h
                subst h
                refine ⟨v, rfl, ?_⟩
                rw [hpid]
            | none =>
              simp only [hpid, Except.ok.injEq] at h
              subst h
              refine ⟨v, rfl, ?_⟩
              rw [hpid]

theorem addInvoiceItem_ok_shape {db db2 : DB} {uid iid : Nat} {raw : ItemInput}
    {item : InvoiceItem} (h : addInvoiceItem db uid iid raw = .ok (db2, item)) :
    ∃ v : ItemValid, itemSchemaValidate raw = .ok v
      ∧ item =
          { id := db.nextInvoiceItemId, invoice_id := iid,
            equipment_id := v.equipmentId, description := v.description,
            quantity := v.quantity, unit_price := v.unitPrice,
            total_price := v.quantity * v.unitPrice }
      ∧ db2 = recalculateInvoiceTotals
          { db with invoice_items := db.invoice_items ++ [item],
                    nextInvoiceItemId := db.nextInvoiceItemId + 1 } iid := by
  unfold addInvoiceItem at h
  cases hu : protect db uid with
  | error e => simp [hu] at h
  | ok user =>
    simp only [hu] at h
    cases hv : itemSchemaValidate raw with
    | error e => simp [hv] at h
    | ok v =>
      simp only [hv] at h
      cases hq : invoiceById db iid with
      | none => simp [hq] at h
      | some invoice =>
        simp only [hq] at h
        split at h
        · simp at h
        · cases heq : v.equipmentId with
          | some eid =>
            simp only [heq] at h
            cases he : equipmentById db eid with
            | none => simp [he] at h
            | some eqp =>
              simp only [he, Except.ok.injEq, Prod.mk.injEq] at h
              obtain ⟨hdb, hit⟩ := h
              subst hit; subst hdb
              refine ⟨v, rfl, ?_, rfl⟩
              rw [heq]
          | none =>
            simp only [heq, Except.ok.injEq, Prod.mk.injEq] at h
            obtain ⟨hdb, hit⟩ := h
            subst hit; subst hdb
            refine ⟨v, rfl, ?_, rfl⟩
            rw [heq]

theorem updateInvoice_ok_shape {db db2 : DB} {uid iid : Nat} {raw : InvoiceInput}
    (h : updateInvoice db uid iid raw = .ok db2) :
    ∃ v : InvoiceInput,
      invoiceSchemaValidate raw = .ok v
      ∧ db2 = recalculateInvoiceTotals
          { db with invoices := db.invoices.map (fun i =>
              if i.id == iid then
                { i with project_id := v.projectId, quote_id := v.quoteId,
                         client_name := v.clientName, tax_rate := v.taxRate,
                         status := v.status }
              else i) } iid := by
  unfold updateInvoice at h
  cases hu : protect db uid with
  | error e => simp [hu] at h
  | ok user =>
    simp only [hu] at h
    cases hv : invoiceSchemaValidate raw with
    | error e => simp [hv] at h
    | ok v =>
      simp only [hv] at h
      cases hq : invoiceById db iid with
      | none => simp [hq] at h
      | some existing =>
        simp only [hq] at h
        split at h
        · simp at h
        · split at h
          · simp at h
          · simp only [Except.ok.injEq] at h
            subst h
            exact ⟨v, rfl, rfl⟩

/-- The committed line-item and document-header mutations of quotes and
invoices (the operations the totals invariant quantifies over). -/
inductive DocOp where
  | addQItem (uid qid : Nat) (raw : ItemInput)
  | updQItem (uid qid itemId : Nat) (raw : ItemInput)
  | delQItem (uid qid itemId : Nat)
  | updQuoteHeader (uid qid : Nat) (raw : QuoteInput)
  | addIItem (uid iid : Nat) (raw : ItemInput)
  | updInvoiceHeader (uid iid : Nat) (raw : InvoiceInput)
deriving DecidableEq, Repr

/-- Dispatch a document mutation to its route handler, keeping the
resulting state. -/
def applyDocOp (db : DB) : DocOp → Except Err DB
  | .addQItem uid qid raw =>
    match addQuoteItem db uid qid raw with
    | .ok (db2, _) => .ok db2
    | .error e => .error e
  | .updQItem uid qid itemId raw => updateQuoteItem db uid qid itemId raw
  | .delQItem uid qid itemId => deleteQuoteItem db uid qid itemId
  | .updQuoteHeader uid qid raw => updateQuote db uid qid raw
  | .addIItem uid iid raw =>
    match addInvoiceItem db uid iid raw with
    | .ok (db2, _) => .ok db2
    | .error e => .error e
  | .updInvoiceHeader uid iid raw => updateInvoice db uid iid raw

/-- C1: after any committed line-item or document-header mutation of a
quote or invoice, every quote and invoice satisfies `subtotal =
Σ total_price` over its items (0 when none), `tax_amount = subtotal *
(tax_rate / 100)` and `total_amount = subtotal + tax_amount`.  Stated as
preservation: from any state satisfying the invariant (with primary-key
uniqueness of line-item ids), any successful mutation leads to a state
satisfying it. -/
theorem totalsInv_preserved {db db2 : DB} {op : DocOp}
    (hwf : itemIdsNodup db) (hinv : totalsInv db)
    (h : applyDocOp db op = .ok db2) : totalsInv db2 := by
  cases op with
  | addQItem uid qid raw =>
    simp only [applyDocOp] at h
    cases hadd : addQuoteItem db uid qid raw with
    | error e => rw [hadd] at h; simp at h
    | ok pr =>
      obtain ⟨dbx, item⟩ := pr
      rw [hadd] at h
      simp only [Except.ok.injEq] at h
      subst h
      obtain ⟨v, hv, hitem, hdb⟩ := addQuoteItem_ok_shape hadd
      subst hitem
      subst hdb
      apply totalsInv_recalcQuote
      · intro q hq hne
        have hold := hinv.1 q hq
        refine ⟨?_, hold.2.1, hold.2.2⟩
        show q.subtotal = itemsSubtotal (db.quote_items ++ [_]) q.id
        rw [itemsSubtotal_append_ne db.quote_items _ q.id (fun hc => hne (Eq.symm hc))]
        exact hold.1
      · intro i hi
        exact hinv.2 i hi
  | updQItem uid qid itemId raw =>
    simp only [applyDocOp] at h
    obtain ⟨v, quote, it0, hv, hq0, hstatus, hfind, hdb⟩ := updateQuoteItem_ok_shape h
    subst hdb
    have hmem0 : it0 ∈ db.quote_items := List.mem_of_find?_eq_some hfind
    have hpred0 := List.find?_some hfind
    have hid0 : it0.id = itemId := beq_iff_eq.mp ((Bool.and_eq_true _ _).mp hpred0).1
    have hqid0 : it0.quote_id = qid := beq_iff_eq.mp ((Bool.and_eq_true _ _).mp hpred0).2
    apply totalsInv_recalcQuote
    · intro q hq hne
      have hold := hinv.1 q hq
      refine ⟨?_, hold.2.1, hold.2.2⟩
      show q.subtotal = itemsSubtotal (db.quote_items.map _) q.id
      rw [itemsSubtotal_update_other db.quote_items itemId q.id v ?_]
      · exact hold.1
      · intro it hit hitid
        have : it = it0 :=
          List.inj_on_of_nodup_map hwf.1 hit hmem0 (by rw [hitid, hid0])
        rw [this, hqid0]
        exact fun hc => hne (Eq.symm hc)
    · intro i hi
      exact hinv.2 i hi
  | delQItem uid qid itemId =>
    simp only [applyDocOp] at h
    obtain ⟨quote, hq0, hstatus, hdb⟩ := deleteQuoteItem_ok_shape h
    subst hdb
    apply totalsInv_recalcQuote
    · intro q hq hne
      have hold := hinv.1 q hq
      refine ⟨?_, hold.2.1, hold.2.2⟩
      show q.subtotal = itemsSubtotal (db.quote_items.filter _) q.id
      rw [itemsSubtotal_filter_del db.quote_items itemId qid q.id (fun hc => hne (Eq.symm hc))]
      exact hold.1
    · intro i hi
      exact hinv.2 i hi
  | updQuoteHeader uid qid raw =>
    simp only [applyDocOp] at h
    obtain ⟨v, hv, hdb⟩ := updateQuote_ok_shape h
    subst hdb
    apply totalsInv_recalcQuote
    · intro q2 hq2 hne
      simp only [List.mem_map] at hq2
      obtain ⟨q, hqmem, rfl⟩ := hq2
      by_cases hid : q.id = qid
      · exact absurd (by simp [hid]) hne
      · have hbeq : (q.id == qid) = false := beq_eq_false_iff_ne.mpr hid
        simp only [hbeq, Bool.false_eq_true, if_false]
        exact hinv.1 q hqmem
    · intro i hi
      exact hinv.2 i hi
  | addIItem uid iid raw =>
    simp only [applyDocOp] at h
    cases hadd : addInvoiceItem db uid iid raw with
    | error e => rw [hadd] at h; simp at h
    | ok pr =>
      obtain ⟨dbx, item⟩ := pr
      rw [hadd] at h
      simp only [Except.ok.injEq] at h
      subst h
      obtain ⟨v, hv, hitem, hdb⟩ := addInvoiceItem_ok_shape hadd
      subst hitem
      subst hdb
      apply totalsInv_recalcInvoice
      · intro q hq
        exact hinv.1 q hq
      · intro i hi hne
        have hold := hinv.2 i hi
        refine ⟨?_, hold.2.1, hold.2.2⟩
        show i.subtotal = invItemsSubtotal (db.invoice_items ++ [_]) i.id
        rw [invItemsSubtotal_append_ne db.invoice_items _ i.id (fun hc => hne (Eq.symm hc))]
        exact hold.1
  | updInvoiceHeader uid iid raw =>
    simp only [applyDocOp] at h
    obtain ⟨v, hv, hdb⟩ := updateInvoice_ok_shape h
    subst hdb
    apply totalsInv_recalcInvoice
    · intro q hq
      exact hinv.1 q hq
    · intro i2 hi2 hne
      simp only [List.mem_map] at hi2
      obtain ⟨i, himem, rfl⟩ := hi2
      by_cases hid : i.id = iid
      · exact absurd (by simp [hid]) hne
      · have hbeq : (i.id == iid) = false := beq_eq_false_iff_ne.mpr hid
        simp only [hbeq, Bool.false_eq_true, if_false]
        exact hinv.2 i himem

/-- Whether a request succeeded. -/
def reqOk {α : Type} : Except Err α → Bool
  | .ok _ => true
  | .error _ => false

instance (items : List QuoteItem) (q : Quote) : Decidable (quoteTotalsOk items q) := by
  unfold quoteTotalsOk
  infer_instance

instance (items : List InvoiceItem) (i : Invoice) : Decidable (invoiceTotalsOk items i) := by
  unfold invoiceTotalsOk
  infer_instance

instance (db : DB) : Decidable (totalsInv db) := by
  unfold totalsInv
  infer_instance

instance (db : DB) : Decidable (itemIdsNodup db) := by
  unfold itemIdsNodup
  infer_instance

/-- Acting user and initial state for the totals-invariant witness: one
quote with tax rate 10, no items, all derived fields 0. -/
def c1Quote : Quote := ⟨1, "Q2025-0001", none, "Client", 10, 0, 0, 0, .draft, 9⟩

/-- Initial state for the totals-invariant witness. -/
def c1Db : DB := ⟨[⟨9, .admin, true⟩], [], [], [], [c1Quote], [], [], [], [], 2, 1, 1, 1⟩

/-- The mutation of the witness run: add the item {qty 2, unit price 50}. -/
def c1Op : DocOp := .addQItem 9 1 ⟨none, "Speaker rental", some 2, 50⟩

/-- Resulting state of the witness run. -/
def c1Db2 : DB := runDB c1Db (applyDocOp c1Db c1Op)

section
set_option allowUnsafeReducibility true
attribute [local semireducible] Rat.mul Rat.add Rat.div Rat.sub Rat.inv

/-- Witness: the concrete spec scenario — tax rate 10, add item
{qty 2, price 50} — run through `totalsInv_preserved`. -/
theorem totalsInv_preserved_witness :
    itemIdsNodup c1Db ∧ totalsInv c1Db
    ∧ applyDocOp c1Db c1Op = .ok c1Db2
    ∧ totalsInv c1Db2 :=
  ⟨by decide, by decide, by decide,
    @totalsInv_preserved c1Db c1Db2 c1Op (by decide) (by decide) (by decide)⟩

end

theorem itemSchemaValidate_ok_facts {raw : ItemInput} {v : ItemValid}
    (h : itemSchemaValidate raw = .ok v) :
    v.quantity.den = 1 ∧ 1 ≤ v.quantity ∧ 0 ≤ v.unitPrice := by
  simp only [itemSchemaValidate] at h
  split at h
  · next hc =>
    simp only [Except.ok.injEq] at h
    subst h
    exact ⟨hc.2.2.1, hc.2.2.2.1, hc.2.2.2.2⟩
  · simp at h

/-- C2: on every line-item create or update on a quote, and every
line-item create on an invoice (no invoice-item update route exists), the
stored `total_price` equals `quantity * unit_price` exactly, computed
server-side from the validated quantity (an integer ≥ 1) and unit price
(≥ 0).  The item schemas declare no total-price field and Joi rejects
unknown keys, so a client-submitted total never reaches the handlers.
Each of the three routes is covered by its own implication, so each case
holds independently of the others. -/
theorem itemTotals_serverSide {db dbA dbU dbI : DB} {uid qid itemId iid : Nat}
    {rawA rawU rawI : ItemInput} {item : QuoteItem} {iitem : InvoiceItem} :
    (addQuoteItem db uid qid rawA = .ok (dbA, item) →
      item.total_price = item.quantity * item.unit_price
      ∧ item.quantity.den = 1 ∧ 1 ≤ item.quantity ∧ 0 ≤ item.unit_price
      ∧ item ∈ dbA.quote_items)
    ∧ (updateQuoteItem db uid qid itemId rawU = .ok dbU →
      ∀ it ∈ dbU.quote_items, it.id = itemId →
        it.total_price = it.quantity * it.unit_price
        ∧ it.quantity.den = 1 ∧ 1 ≤ it.quantity ∧ 0 ≤ it.unit_price)
    ∧ (addInvoiceItem db uid iid rawI = .ok (dbI, iitem) →
      iitem.total_price = iitem.quantity * iitem.unit_price
      ∧ iitem.quantity.den = 1 ∧ 1 ≤ iitem.quantity ∧ 0 ≤ iitem.unit_price
      ∧ iitem ∈ dbI.invoice_items) := by
  refine ⟨?_, ?_, ?_⟩
  · intro hA
    obtain ⟨v, hv, hitem, hdb⟩ := addQuoteItem_ok_shape hA
    obtain ⟨hden, hq1, hup⟩ := itemSchemaValidate_ok_facts hv
    subst hitem
    subst hdb
    exact ⟨rfl, hden, hq1, hup, List.mem_append_right _ (List.mem_singleton_self _)⟩
  · intro hU
    obtain ⟨v, quote, it0, hv, hq0, hstatus, hfind, hdb⟩ := updateQuoteItem_ok_shape hU
    obtain ⟨hden, hq1, hup⟩ := itemSchemaValidate_ok_facts hv
    subst hdb
    intro it hit hitid
    have hit2 : it ∈ db.quote_items.map (fun it =>
        if it.id == itemId then
          { it with equipment_id := v.equipmentId, description := v.description,
                    quantity := v.quantity, unit_price := v.unitPrice,
                    total_price := v.quantity * v.unitPrice }
        else it) := hit
    simp only [List.mem_map] at hit2
    obtain ⟨it1, hmem1, rfl⟩ := hit2
    by_cases hid : it1.id = itemId
    · simp only [hid, beq_self_eq_true, if_true]
      refine ⟨?_, hden, hq1, hup⟩
      simp
    · have hbeq : (it1.id == itemId) = false := beq_eq_false_iff_ne.mpr hid
      rw [hbeq] at hitid
      simp only [Bool.false_eq_true, if_false] at hitid
      exact absurd hitid hid
  · intro hI
    obtain ⟨v, hv, hitem, hdb⟩ := addInvoiceItem_ok_shape hI
    obtain ⟨hden, hq1, hup⟩ := itemSchemaValidate_ok_facts hv
    subst hitem
    subst hdb
    exact ⟨rfl, hden, hq1, hup, List.mem_append_right _ (List.mem_singleton_self _)⟩

/-- Initial state for the line-item computation witness: a draft quote
with one existing item, and a draft invoice. -/
def c2Db : DB := ⟨[⟨9, .admin, true⟩], [], [], [],
  [⟨1, "Q2025-0001", none, "Client", 0, 120, 0, 120, .draft, 9⟩],
  [⟨1, 1, none, "Old item", 3, 40, 120⟩],
  [⟨1, "INV2025-0001", none, none, "Client", 0, 0, 0, 0, .draft, 9⟩],
  [], [], 2, 2, 1, 1⟩

/-- Request body used by all three witness requests. -/
def c2Raw : ItemInput := ⟨none, "Microphone", some 4, 25⟩

/-- State after the witness add-quote-item request. -/
def c2DbA : DB := runDBP c2Db (addQuoteItem c2Db 9 1 c2Raw)

/-- State after the witness update-quote-item request. -/
def c2DbU : DB := runDB c2Db (updateQuoteItem c2Db 9 1 1 c2Raw)

/-- State after the witness add-invoice-item request. -/
def c2DbI : DB := runDBP c2Db (addInvoiceItem c2Db 9 1 c2Raw)

/-- The quote item stored by the witness add request. -/
def c2ItemA : QuoteItem := ⟨2, 1, none, "Microphone", 4, 25, 100⟩

/-- The invoice item stored by the witness add request. -/
def c2ItemI : InvoiceItem := ⟨1, 1, none, "Microphone", 4, 25, 100⟩

section
set_option allowUnsafeReducibility true
attribute [local semireducible] Rat.mul Rat.add Rat.div Rat.sub Rat.inv

/-- Witness: concrete add, update and invoice-add of item {qty 4, unit
price 25} instantiating each implication of `itemTotals_serverSide`; the
stored totals are all 100. -/
theorem itemTotals_serverSide_witness :
    (c2ItemA.total_price = c2ItemA.quantity * c2ItemA.unit_price
      ∧ c2ItemA.quantity.den = 1 ∧ 1 ≤ c2ItemA.quantity ∧ 0 ≤ c2ItemA.unit_price
      ∧ c2ItemA ∈ c2DbA.quote_items)
    ∧ (∀ it ∈ c2DbU.quote_items, it.id = 1 →
        it.total_price = it.quantity * it.unit_price
        ∧ it.quantity.den = 1 ∧ 1 ≤ it.quantity ∧ 0 ≤ it.unit_price)
    ∧ (c2ItemI.total_price = c2ItemI.quantity * c2ItemI.unit_price
      ∧ c2ItemI.quantity.den = 1 ∧ 1 ≤ c2ItemI.quantity ∧ 0 ≤ c2ItemI.unit_price
      ∧ c2ItemI ∈ c2DbI.invoice_items) :=
  ⟨(@itemTotals_serverSide c2Db c2DbA c2DbU c2DbI 9 1 1 1 c2Raw c2Raw c2Raw
      c2ItemA c2ItemI).1 (by decide),
   (@itemTotals_serverSide c2Db c2DbA c2DbU c2DbI 9 1 1 1 c2Raw c2Raw c2Raw
      c2ItemA c2ItemI).2.1 (by decide),
   (@itemTotals_serverSide c2Db c2DbA c2DbU c2DbI 9 1 1 1 c2Raw c2Raw c2Raw
      c2ItemA c2ItemI).2.2 (by decide)⟩

end

theorem protect_ok {db : DB} {uid : Nat} {u : User}
    (hu : findUser db uid = some u) (hactive : u.is_active = true) :
    protect db uid = .ok u := by
  simp [protect, hu, hactive]

/-- C5: for an authorized, well-formed request, adding, editing or
deleting a line item of a quote whose status is `accepted` — or adding a
line item to an invoice whose status is `paid`; no invoice-item edit or
delete route exists — fails with the ConflictError (HTTP 400) of the
terminal-state guard, and the state (hence the document's line items and
derived totals) is left unchanged.  Each route is covered by its own
implication, carrying only that route's own side conditions; the only
shared hypotheses are the authenticated active user required by the
`protect` middleware on all four routes. -/
theorem terminalState_guard {db : DB} {uid qid itemId iid : Nat} {rawItem : ItemInput}
    {u : User} {quote : Quote} {invoice : Invoice} {v : ItemValid}
    (hu : findUser db uid = some u) (hactive : u.is_active = true) :
    (quoteById db qid = some quote → quote.status = .accepted →
      (quote.created_by = u.id ∨ u.role = .admin ∨ u.role = .manager) →
      itemSchemaValidate rawItem = .ok v →
      addQuoteItem db uid qid rawItem
          = .error (createError "Cannot modify accepted quotes" 400)
        ∧ runDBP db (addQuoteItem db uid qid rawItem) = db)
    ∧ (quoteById db qid = some quote → quote.status = .accepted →
      itemSchemaValidate rawItem = .ok v →
      updateQuoteItem db uid qid itemId rawItem
          = .error (createError "Cannot modify accepted quotes" 400)
        ∧ runDB db (updateQuoteItem db uid qid itemId rawItem) = db)
    ∧ (quoteById db qid = some quote → quote.status = .accepted →
      deleteQuoteItem db uid qid itemId
          = .error (createError "Cannot modify accepted quotes" 400)
        ∧ runDB db (deleteQuoteItem db uid qid itemId) = db)
    ∧ (invoiceById db iid = some invoice → invoice.status = .paid →
      itemSchemaValidate rawItem = .ok v →
      addInvoiceItem db uid iid rawItem
          = .error (createError "Cannot modify paid invoices" 400)
        ∧ runDBP db (addInvoiceItem db uid iid rawItem) = db) := by
  have hp : protect db uid = .ok u := protect_ok hu hactive
  refine ⟨?_, ?_, ?_, ?_⟩
  · intro hq hstatus hown hv
    have hcond : ¬(quote.created_by ≠ u.id ∧ u.role ≠ Role.admin ∧ u.role ≠ Role.manager) := by
      rcases hown with h | h | h <;> simp [h]
    have h1 : addQuoteItem db uid qid rawItem
        = .error (createError "Cannot modify accepted quotes" 400) := by
      unfold addQuoteItem
      simp [hp, hv, hq, hcond, hstatus]
    exact ⟨h1, by simp [runDBP, h1]⟩
  · intro hq hstatus hv
    have h2 : updateQuoteItem db uid qid itemId rawItem
        = .error (createError "Cannot modify accepted quotes" 400) := by
      unfold updateQuoteItem
      simp [hp, hv, hq, hstatus]
    exact ⟨h2, by simp [runDB, h2]⟩
  · intro hq hstatus
    have h3 : deleteQuoteItem db uid qid itemId
        = .error (createError "Cannot modify accepted quotes" 400) := by
      unfold deleteQuoteItem
      simp [hp, hq, hstatus]
    exact ⟨h3, by simp [runDB, h3]⟩
  · intro hi hpaid hv
    have h4 : addInvoiceItem db uid iid rawItem
        = .error (createError "Cannot modify paid invoices" 400) := by
      unfold addInvoiceItem
      simp [hp, hv, hi, hpaid]
    exact ⟨h4, by simp [runDBP, h4]⟩

/-- C9: document deletion carries no terminal-state guard: an admin or
manager's delete request succeeds for every existing quote — also one
with status `accepted` — removing the quote row and (via the schema's
`ON DELETE CASCADE`) its line items; likewise every existing invoice,
also one with status `paid`. -/
theorem deleteDocument_no_status_guard {db : DB} {uid qid iid : Nat}
    {u : User} {quote : Quote} {invoice : Invoice}
    (hu : findUser db uid = some u) (hactive : u.is_active = true)
    (hrole : u.role = .admin ∨ u.role = .manager) :
    (quoteById db qid = some quote →
      deleteQuote db uid qid = .ok
        { db with quotes := db.quotes.filter (fun q => !(q.id == qid)),
                  quote_items := db.quote_items.filter (fun it => !(it.quote_id == qid)) })
    ∧ (invoiceById db iid = some invoice →
      deleteInvoice db uid iid = .ok
        { db with invoices := db.invoices.filter (fun i => !(i.id == iid)),
                  invoice_items := db.invoice_items.filter (fun it => !(it.invoice_id == iid)) }) := by
  have hp : protect db uid = .ok u := protect_ok hu hactive
  have hcond : ¬(u.role ≠ Role.admin ∧ u.role ≠ Role.manager) := by
    rcases hrole with h | h <;> simp [h]
  constructor
  · intro hq
    unfold deleteQuote
    simp [hp, hq, hcond]
  · intro hi
    unfold deleteInvoice
    simp [hp, hi, hcond]

/-- C10: updating or deleting a quote line item performs no
ownership-or-role check: an authenticated active user with role `user`
who is not the quote's creator can update and delete its line items (the
quote not being `accepted`), while the same user's attempt to *add* a
line item is rejected with a 403. -/
theorem itemMutation_no_ownership_check {db : DB} {uid qid itemId : Nat} {raw : ItemInput}
    {u : User} {quote : Quote} {v : ItemValid} {it0 : QuoteItem}
    (hu : findUser db uid = some u) (hactive : u.is_active = true)
    (hrole : u.role = .user) (hq : quoteById db qid = some quote)
    (hnotmine : quote.created_by ≠ u.id) (hstatus : quote.status ≠ .accepted)
    (hv : itemSchemaValidate raw = .ok v)
    (hfind : db.quote_items.find? (fun it => it.id == itemId && it.quote_id == qid)
      = some it0) :
    reqOk (updateQuoteItem db uid qid itemId raw) = true
    ∧ reqOk (deleteQuoteItem db uid qid itemId) = true
    ∧ addQuoteItem db uid qid raw
        = .error (createError "Not authorized to modify this quote" 403) := by
  have hp : protect db uid = .ok u := protect_ok hu hactive
  have hcond : quote.created_by ≠ u.id ∧ u.role ≠ Role.admin ∧ u.role ≠ Role.manager := by
    refine ⟨hnotmine, ?_, ?_⟩ <;> simp [hrole]
  refine ⟨?_, ?_, ?_⟩
  · unfold updateQuoteItem
    simp [hp, hv, hq, hstatus, hfind, reqOk]
  · unfold deleteQuoteItem
    simp [hp, hq, hstatus, reqOk]
  · unfold addQuoteItem
    simp [hp, hv, hq, hcond, hstatus]

/-- Acting admin for the terminal-state witness. -/
def c5User : User := ⟨9, .admin, true⟩

/-- An accepted quote (totals consistent with its single item). -/
def c5Quote : Quote := ⟨1, "Q2025-0001", none, "Client", 10, 100, 10, 110, .accepted, 9⟩

/-- A paid invoice. -/
def c5Invoice : Invoice := ⟨1, "INV2025-0001", none, none, "Client", 0, 0, 0, 0, .paid, 9⟩

/-- State with the accepted quote, its item, and the paid invoice. -/
def c5Db : DB := ⟨[c5User], [], [], [],
  [c5Quote], [⟨1, 1, none, "Item", 2, 50, 100⟩], [c5Invoice], [], [], 2, 2, 1, 1⟩

/-- A well-formed line-item request body. -/
def c5Raw : ItemInput := ⟨none, "Extra", some 1, 5⟩

/-- `c5Raw` after validation. -/
def c5V : ItemValid := ⟨none, "Extra", 1, 5⟩

section
set_option allowUnsafeReducibility true
attribute [local semireducible] Rat.mul Rat.add Rat.div Rat.sub Rat.inv

/-- Witness: in `c5Db` the add, update and delete of a line item of the
accepted quote, and the add of a line item of the paid invoice, are all
rejected with the terminal-state ConflictError and leave the state
unchanged — instantiating each implication of `terminalState_guard`. -/
theorem terminalState_guard_witness :
    (addQuoteItem c5Db 9 1 c5Raw = .error (createError "Cannot modify accepted quotes" 400)
      ∧ runDBP c5Db (addQuoteItem c5Db 9 1 c5Raw) = c5Db)
    ∧ (updateQuoteItem c5Db 9 1 1 c5Raw
        = .error (createError "Cannot modify accepted quotes" 400)
      ∧ runDB c5Db (updateQuoteItem c5Db 9 1 1 c5Raw) = c5Db)
    ∧ (deleteQuoteItem c5Db 9 1 1 = .error (createError "Cannot modify accepted quotes" 400)
      ∧ runDB c5Db (deleteQuoteItem c5Db 9 1 1) = c5Db)
    ∧ (addInvoiceItem c5Db 9 1 c5Raw = .error (createError "Cannot modify paid invoices" 400)
      ∧ runDBP c5Db (addInvoiceItem c5Db 9 1 c5Raw) = c5Db) :=
  ⟨(@terminalState_guard c5Db 9 1 1 1 c5Raw c5User c5Quote c5Invoice c5V
      (by decide) (by decide)).1 (by decide) (by decide) (Or.inl rfl) (by decide),
   (@terminalState_guard c5Db 9 1 1 1 c5Raw c5User c5Quote c5Invoice c5V
      (by decide) (by decide)).2.1 (by decide) (by decide) (by decide),
   (@terminalState_guard c5Db 9 1 1 1 c5Raw c5User c5Quote c5Invoice c5V
      (by decide) (by decide)).2.2.1 (by decide) (by decide),
   (@terminalState_guard c5Db 9 1 1 1 c5Raw c5User c5Quote c5Invoice c5V
      (by decide) (by decide)).2.2.2 (by decide) (by decide) (by decide)⟩

end

/-- Acting manager for the delete-without-guard witness. -/
def c9User : User := ⟨9, .manager, true⟩

/-- An accepted quote — deletable nonetheless. -/
def c9Quote : Quote := ⟨1, "Q2025-0001", none, "Client", 10, 100, 10, 110, .accepted, 7⟩

/-- A paid invoice — deletable nonetheless. -/
def c9Invoice : Invoice := ⟨1, "INV2025-0001", none, none, "Client", 0, 50, 0, 50, .paid, 7⟩

/-- State with the accepted quote, its line item, the paid invoice and
its line item. -/
def c9Db : DB := ⟨[c9User], [], [], [],
  [c9Quote], [⟨1, 1, none, "Item", 2, 50, 100⟩],
  [c9Invoice], [⟨1, 1, none, "Item", 1, 50, 50⟩], [], 2, 2, 2, 1⟩

section
set_option allowUnsafeReducibility true
attribute [local semireducible] Rat.mul Rat.add Rat.div Rat.sub Rat.inv

/-- Witness: a manager deletes the accepted quote and the paid invoice of
`c9Db`; both succeed, removing the document rows and their items —
instantiating each implication of `deleteDocument_no_status_guard`. -/
theorem deleteDocument_no_status_guard_witness :
    deleteQuote c9Db 9 1 = .ok
      { c9Db with quotes := c9Db.quotes.filter (fun q => !(q.id == 1)),
                  quote_items := c9Db.quote_items.filter (fun it => !(it.quote_id == 1)) }
    ∧ deleteInvoice c9Db 9 1 = .ok
      { c9Db with invoices := c9Db.invoices.filter (fun i => !(i.id == 1)),
                  invoice_items := c9Db.invoice_items.filter (fun it => !(it.invoice_id == 1)) } :=
  ⟨(@deleteDocument_no_status_guard c9Db 9 1 1 c9User c9Quote c9Invoice
      (by decide) (by decide) (Or.inr rfl)).1 (by decide),
   (@deleteDocument_no_status_guard c9Db 9 1 1 c9User c9Quote c9Invoice
      (by decide) (by decide) (Or.inr rfl)).2 (by decide)⟩

end

/-- The acting user of the ownership-gap witness: role `user`, active,
not the quote's creator. -/
def c10User : User := ⟨2, .user, true⟩

/-- A draft quote created by user 9. -/
def c10Quote : Quote := ⟨1, "Q2025-0001", none, "Client", 0, 10, 0, 10, .draft, 9⟩

/-- Its existing line item. -/
def c10Item : QuoteItem := ⟨1, 1, none, "X", 1, 10, 10⟩

/-- State with the quote, its item, its creator and the unrelated user. -/
def c10Db : DB := ⟨[⟨9, .admin, true⟩, c10User], [], [], [],
  [c10Quote], [c10Item], [], [], [], 2, 2, 1, 1⟩

/-- A well-formed line-item request body. -/
def c10Raw : ItemInput := ⟨none, "Replaced", some 2, 3⟩

/-- `c10Raw` after validation. -/
def c10V : ItemValid := ⟨none, "Replaced", 2, 3⟩

section
set_option allowUnsafeReducibility true
attribute [local semireducible] Rat.mul Rat.add Rat.div Rat.sub Rat.inv

/-- Witness: user 2 (role `user`, not the creator) updates and deletes a
line item of quote 1 successfully, while the same user's add-item request
is rejected with 403. -/
theorem itemMutation_no_ownership_check_witness :
    reqOk (updateQuoteItem c10Db 2 1 1 c10Raw) = true
    ∧ reqOk (deleteQuoteItem c10Db 2 1 1) = true
    ∧ addQuoteItem c10Db 2 1 c10Raw
        = .error (createError "Not authorized to modify this quote" 403) :=
  @itemMutation_no_ownership_check c10Db 2 1 1 c10Raw c10User c10Quote c10V c10Item
    (by decide) (by decide) (by decide) (by decide) (by decide) (by decide)
    (by decide) (by decide)

end

/-- C6 (amended): an allocation request for (project `pid`, equipment
`eid`) succeeds iff the project exists with status not in
{completed, cancelled}, the equipment exists with `is_available` true,
and *no* `project_equipment` row at all exists for the pair — open or
returned: the duplicate check carries no `returned_date IS NULL`
condition (and the table's `UNIQUE(project_id, equipment_id)` constraint
matches).  In particular, re-allocating after a completed return is
rejected with the ConflictError, contrary to the original claim. -/
theorem allocateEquipment_iff {db : DB} {uid pid today : Nat} {raw : AllocInput}
    {u : User} {v : AllocValid}
    (hu : findUser db uid = some u) (hactive : u.is_active = true)
    (hv : allocSchemaValidate raw = .ok v) :
    (reqOk (allocateEquipment db uid pid raw today) = true ↔
      (∃ p, projectById db pid = some p ∧ p.status ≠ .completed ∧ p.status ≠ .cancelled)
      ∧ (∃ e, equipmentById db v.equipmentId = some e ∧ e.is_available = true)
      ∧ db.project_equipment.find? (fun pe =>
          pe.project_id == pid && pe.equipment_id == v.equipmentId) = none)
    ∧ (∀ p e pe0,
        projectById db pid = some p → p.status ≠ .completed → p.status ≠ .cancelled →
        equipmentById db v.equipmentId = some e → e.is_available = true →
        db.project_equipment.find? (fun x =>
          x.project_id == pid && x.equipment_id == v.equipmentId) = some pe0 →
        allocateEquipment db uid pid raw today
          = .error (createError "Equipment is already allocated to this project" 400)) := by
  have hp : protect db uid = .ok u := protect_ok hu hactive
  constructor
  · constructor
    · intro hok
      unfold allocateEquipment at hok
      simp only [hp, hv] at hok
      split at hok
      · simp [reqOk] at hok
      · next p hproj =>
        split at hok
        · simp [reqOk] at hok
        · next hst =>
          push_neg at hst
          split at hok
          · simp [reqOk] at hok
          · next e heqp =>
            split at hok
            · simp [reqOk] at hok
            · next hav =>
              split at hok
              · simp [reqOk] at hok
              · next hex =>
                exact ⟨⟨p, hproj, hst.1, hst.2⟩,
                  ⟨e, heqp, by simpa using hav⟩,
                  Option.not_isSome_iff_eq_none.mp (by simpa using hex)⟩
    · rintro ⟨⟨p, hproj, hst1, hst2⟩, ⟨e, heqp, hav⟩, hnone⟩
      unfold allocateEquipment
      simp [hp, hv, hproj, hst1, hst2, heqp, hav, hnone, reqOk]
  · intro p e pe0 hproj hst1 hst2 heqp hav hsome
    unfold allocateEquipment
    simp [hp, hv, hproj, hst1, hst2, heqp, hav, hsome]

/-- Project and equipment rows of the re-allocation scenario. -/
def c6Proj : Project := ⟨1, .active⟩

/-- Equipment that has been returned, hence available again. -/
def c6Equip : Equipment := ⟨5, "Mixer", none, true⟩

/-- State with an already-*returned* allocation row for (project 1,
equipment 5): no open row, project active, equipment available. -/
def c6Db : DB := ⟨[⟨9, .admin, true⟩], [c6Equip], [c6Proj],
  [⟨1, 1, 5, 1, 100, some 200⟩], [], [], [], [], [], 1, 1, 1, 2⟩

/-- A well-formed allocation request body for equipment 5. -/
def c6Raw : AllocInput := ⟨5, some 1⟩

/-- `c6Raw` after validation. -/
def c6V : AllocValid := ⟨5, 1⟩

section
set_option allowUnsafeReducibility true
attribute [local semireducible] Rat.mul Rat.add Rat.div Rat.sub Rat.inv

/-- Counterexample to C6 as stated: in `c6Db` the project exists and is
active, the equipment exists and is available, and there is *no open*
allocation row (`returned_date IS NULL`) for the pair — the old row is
returned — yet the allocation request fails with the duplicate-allocation
ConflictError, because the handler's duplicate check (and the schema's
`UNIQUE(project_id, equipment_id)`) ignores `returned_date`. -/
theorem allocate_reallocation_counterexample :
    projectById c6Db 1 = some c6Proj
    ∧ c6Proj.status ≠ .completed ∧ c6Proj.status ≠ .cancelled
    ∧ equipmentById c6Db 5 = some c6Equip
    ∧ c6Equip.is_available = true
    ∧ c6Db.project_equipment.find? (fun pe =>
        pe.project_id == 1 && pe.equipment_id == 5 && pe.returned_date.isNone) = none
    ∧ allocateEquipment c6Db 9 1 c6Raw 300
        = .error (createError "Equipment is already allocated to this project" 400) := by
  decide

/-- Witness for `allocateEquipment_iff` at the concrete re-allocation
scenario. -/
theorem allocateEquipment_iff_witness :
    (reqOk (allocateEquipment c6Db 9 1 c6Raw 300) = true ↔
      (∃ p, projectById c6Db 1 = some p ∧ p.status ≠ .completed ∧ p.status ≠ .cancelled)
      ∧ (∃ e, equipmentById c6Db 5 = some e ∧ e.is_available = true)
      ∧ c6Db.project_equipment.find? (fun pe =>
          pe.project_id == 1 && pe.equipment_id == 5) = none)
    ∧ (∀ p e pe0,
        projectById c6Db 1 = some p → p.status ≠ .completed → p.status ≠ .cancelled →
        equipmentById c6Db 5 = some e → e.is_available = true →
        c6Db.project_equipment.find? (fun x =>
          x.project_id == 1 && x.equipment_id == 5) = some pe0 →
        allocateEquipment c6Db 9 1 c6Raw 300
          = .error (createError "Equipment is already allocated to this project" 400)) :=
  @allocateEquipment_iff c6Db 9 1 300 c6Raw ⟨9, .admin, true⟩ c6V
    (by decide) (by decide) (by decide)

end

/-- The availability invariant: an equipment unit referenced by an open
allocation row (`returned_date IS NULL`) has its `is_available` flag
false. -/
def availInv (db : DB) : Prop :=
  ∀ pe ∈ db.project_equipment, pe.returned_date = none →
    ∀ e ∈ db.equipment, e.id = pe.equipment_id → e.is_available = false

/-- At most one open allocation row per equipment unit (two open rows for
the same equipment coincide) — maintained by the availability guard. -/
def openUnique (db : DB) : Prop :=
  ∀ pe1 ∈ db.project_equipment, ∀ pe2 ∈ db.project_equipment,
    pe1.returned_date = none → pe2.returned_date = none →
    pe1.equipment_id = pe2.equipment_id → pe1 = pe2

instance (db : DB) : Decidable (availInv db) := by
  unfold availInv
  infer_instance

instance (db : DB) : Decidable (openUnique db) := by
  unfold openUnique
  infer_instance

theorem allocateEquipment_ok_shape {db db2 : DB} {uid pid today : Nat}
    {raw : AllocInput} {pe : ProjectEquipment}
    (h : allocateEquipment db uid pid raw today = .ok (db2, pe)) :
    ∃ v : AllocValid, ∃ e0 : Equipment,
      allocSchemaValidate raw = .ok v
      ∧ equipmentById db v.equipmentId = some e0
      ∧ e0.is_available = true
      ∧ pe = ⟨db.nextAllocId, pid, v.equipmentId, v.quantity, today, none⟩
      ∧ db2 = { db with
          project_equipment := db.project_equipment ++ [pe],
          equipment := db.equipment.map (fun e =>
            if e.id == v.equipmentId then { e with is_available := false } else e),
          nextAllocId := db.nextAllocId + 1 } := by
  unfold allocateEquipment at h
  cases hu : protect db uid with
  | error e => simp [hu] at h
  | ok user =>
    simp only [hu] at h
    cases hv : allocSchemaValidate raw with
    | error e => simp [hv] at h
    | ok v =>
      simp only [hv] at h
      split at h
      · simp at h
      · next p hproj =>
        split at h
        · simp at h
        · split at h
          · simp at h
          · next e0 heqp =>
            split at h
            · simp at h
            · next hav =>
              split at h
              · simp at h
              · simp only [Except.ok.injEq, Prod.mk.injEq] at h
                obtain ⟨hdb, hpe⟩ := h
                subst hpe; subst hdb
                exact ⟨v, e0, rfl, heqp, by simpa using hav, rfl, rfl⟩

theorem returnEquipment_ok_shape {db db3 : DB} {uid pid eid today : Nat}
    (h : returnEquipment db uid pid eid today = .ok db3) :
    ∃ alloc : ProjectEquipment,
      db.project_equipment.find? (fun x =>
        x.project_id == pid && x.equipment_id == eid && x.returned_date.isNone) = some alloc
      ∧ db3 = { db with
          project_equipment := db.project_equipment.map (fun x =>
            if x.id == alloc.id then { x with returned_date := some today } else x),
          equipment := db.equipment.map (fun e =>
            if e.id == eid then { e with is_available := true } else e) } := by
  unfold returnEquipment at h
  cases hu : protect db uid with
  | error e => simp [hu] at h
  | ok user =>
    simp only [hu] at h
    split at h
    · simp at h
    · next alloc hfind =>
      simp only [Except.ok.injEq] at h
      subst h
      exact ⟨alloc, hfind, rfl⟩

/-- C7 (amended): allocation and return preserve the implication
"open allocation row ⟹ equipment unavailable" (together with its
companion invariant that each equipment unit has at most one open row),
and a successful return sets the returned equipment's `is_available` flag
back to true.  The original claim — that *every* equipment CRUD operation
preserves the implication — fails: the equipment update route overwrites
`is_available` from client input with no check against open allocations
(see the counterexample). -/
theorem allocationAvailability_inv {db db2 db3 : DB} {uid pid eid today : Nat}
    {raw : AllocInput} {pe : ProjectEquipment}
    (hinv : availInv db ∧ openUnique db) :
    (allocateEquipment db uid pid raw today = .ok (db2, pe) →
      availInv db2 ∧ openUnique db2)
    ∧ (returnEquipment db uid pid eid today = .ok db3 →
      (availInv db3 ∧ openUnique db3)
      ∧ ∀ e ∈ db3.equipment, e.id = eid → e.is_available = true) := by
  obtain ⟨hA, hU⟩ := hinv
  constructor
  · intro h
    obtain ⟨v, e0, hv, heqp, hav0, hpe, hdb⟩ := allocateEquipment_ok_shape h
    subst hpe; subst hdb
    have heqp2 : db.equipment.find? (fun e => e.id == v.equipmentId) = some e0 := heqp
    have he0mem : e0 ∈ db.equipment := List.mem_of_find?_eq_some heqp2
    have he0id : e0.id = v.equipmentId := by
      simpa using List.find?_some heqp2
    constructor
    · intro pe2 hpe2 hopen e he hei
      simp only [List.mem_map] at he
      obtain ⟨e1, he1mem, rfl⟩ := he
      by_cases hid : e1.id = v.equipmentId
      · simp [hid]
      · have hbeq : (e1.id == v.equipmentId) = false := beq_eq_false_iff_ne.mpr hid
        simp only [hbeq, Bool.false_eq_true, if_false] at hei ⊢
        rcases List.mem_append.mp hpe2 with hpe2m | hpe2m
        · exact hA pe2 hpe2m hopen e1 he1mem hei
        · simp only [List.mem_singleton] at hpe2m
          subst hpe2m
          exact absurd hei hid
    · intro pe1 hpe1 pe2 hpe2 ho1 ho2 heq
      rcases List.mem_append.mp hpe1 with h1 | h1 <;>
        rcases List.mem_append.mp hpe2 with h2 | h2
      · exact hU pe1 h1 pe2 h2 ho1 ho2 heq
      · simp only [List.mem_singleton] at h2
        subst h2
        have hfalse := hA pe1 h1 ho1 e0 he0mem (by rw [he0id]; exact heq.symm)
        rw [hav0] at hfalse
        exact Bool.noConfusion hfalse
      · simp only [List.mem_singleton] at h1
        subst h1
        have hfalse := hA pe2 h2 ho2 e0 he0mem (by rw [he0id]; exact heq)
        rw [hav0] at hfalse
        exact Bool.noConfusion hfalse
      · simp only [List.mem_singleton] at h1 h2
        rw [h1, h2]
  · intro h
    obtain ⟨alloc, hfind, hdb⟩ := returnEquipment_ok_shape h
    subst hdb
    have hallocmem : alloc ∈ db.project_equipment := List.mem_of_find?_eq_some hfind
    have hpred := List.find?_some hfind
    have h1 := (Bool.and_eq_true _ _).mp hpred
    have h2 := (Bool.and_eq_true _ _).mp h1.1
    have heqid : alloc.equipment_id = eid := beq_iff_eq.mp h2.2
    have hopen : alloc.returned_date = none := Option.isNone_iff_eq_none.mp h1.2
    refine ⟨⟨?_, ?_⟩, ?_⟩
    · intro pe2 hpe2 hopen2 e he hei
      simp only [List.mem_map] at hpe2 he
      obtain ⟨pe1, hpe1mem, rfl⟩ := hpe2
      obtain ⟨e1, he1mem, rfl⟩ := he
      by_cases hidp : pe1.id = alloc.id
      · simp [hidp] at hopen2
      · have hbeq : (pe1.id == alloc.id) = false := beq_eq_false_iff_ne.mpr hidp
        simp only [hbeq, Bool.false_eq_true, if_false] at hopen2 hei ⊢
        have hne : pe1.equipment_id ≠ eid := by
          intro hceq
          have heqa : pe1 = alloc :=
            hU pe1 hpe1mem alloc hallocmem hopen2 hopen (by rw [hceq, heqid])
          exact hidp (by rw [heqa])
        by_cases hide : e1.id = eid
        · simp only [hide, beq_self_eq_true, if_true] at hei ⊢
          exact absurd hei.symm hne
        · have hbeqe : (e1.id == eid) = false := beq_eq_false_iff_ne.mpr hide
          simp only [hbeqe, Bool.false_eq_true, if_false] at hei ⊢
          exact hA pe1 hpe1mem hopen2 e1 he1mem hei
    · intro pe1 hpe1 pe2 hpe2 ho1 ho2 heq2
      simp only [List.mem_map] at hpe1 hpe2
      obtain ⟨a, hamem, rfl⟩ := hpe1
      obtain ⟨b, hbmem, rfl⟩ := hpe2
      by_cases hida : a.id = alloc.id
      · simp [hida] at ho1
      · by_cases hidb : b.id = alloc.id
        · simp [hidb] at ho2
        · have hba : (a.id == alloc.id) = false := beq_eq_false_iff_ne.mpr hida
          have hbb : (b.id == alloc.id) = false := beq_eq_false_iff_ne.mpr hidb
          simp only [hba, hbb, Bool.false_eq_true, if_false] at ho1 ho2 heq2 ⊢
          rw [hU a hamem b hbmem ho1 ho2 heq2]
    · intro e he hei
      simp only [List.mem_map] at he
      obtain ⟨e1, he1mem, rfl⟩ := he
      by_cases hide : e1.id = eid
      · simp [hide]
      · have hbeqe : (e1.id == eid) = false := beq_eq_false_iff_ne.mpr hide
        simp only [hbeqe, Bool.false_eq_true, if_false] at hei ⊢
        exact absurd hei hide

/-- State with an *open* allocation of equipment 5 to project 1; the
invariant holds (equipment 5 is unavailable). -/
def c7Db : DB := ⟨[⟨9, .admin, true⟩], [⟨5, "Amp", none, false⟩], [⟨1, .active⟩],
  [⟨1, 1, 5, 1, 100, none⟩], [], [], [], [], [], 1, 1, 1, 2⟩

/-- An equipment update body that (via the Joi default `isAvailable:
true`) marks the unit available again. -/
def c7Raw : EquipmentInput := ⟨"Amp", none, none⟩

section
set_option allowUnsafeReducibility true
attribute [local semireducible] Rat.mul Rat.add Rat.div Rat.sub Rat.inv

/-- Counterexample to C7 as stated: in `c7Db` the implication "open row ⟹
unavailable" holds, equipment 5 has an open allocation, yet the equipment
update route — one of the system's equipment CRUD operations — succeeds
and flips `is_available` back to true, breaking the implication.  The
update body does not even need to name the flag: Joi's `default(true)`
supplies it. -/
theorem equipmentUpdate_breaks_availInv :
    availInv c7Db ∧ openUnique c7Db
    ∧ reqOk (updateEquipment c7Db 9 5 c7Raw) = true
    ∧ ¬ availInv (runDB c7Db (updateEquipment c7Db 9 5 c7Raw)) := by
  decide

end

/-- Initial state for the allocate/return invariant witness: equipment 5
free, equipment 6 openly allocated to project 2. -/
def c7WDb : DB := ⟨[⟨9, .admin, true⟩],
  [⟨5, "Amp", none, true⟩, ⟨6, "Desk", none, false⟩],
  [⟨1, .active⟩, ⟨2, .active⟩],
  [⟨1, 2, 6, 1, 50, none⟩], [], [], [], [], [], 1, 1, 1, 2⟩

/-- Allocation request body for equipment 5. -/
def c7WRaw : AllocInput := ⟨5, some 1⟩

/-- State after allocating equipment 5 to project 2. -/
def c7WDb2 : DB := runDBP c7WDb (allocateEquipment c7WDb 9 2 c7WRaw 60)

/-- The allocation row created by that request. -/
def c7WPe : ProjectEquipment := ⟨2, 2, 5, 1, 60, none⟩

/-- State after returning equipment 6 from project 2. -/
def c7WDb3 : DB := runDB c7WDb (returnEquipment c7WDb 9 2 6 60)

section
set_option allowUnsafeReducibility true
attribute [local semireducible] Rat.mul Rat.add Rat.div Rat.sub Rat.inv

/-- Witness: a concrete allocation and a concrete return, both preserving
the availability invariant, the return making equipment 6 available. -/
theorem allocationAvailability_inv_witness :
    (availInv c7WDb2 ∧ openUnique c7WDb2)
    ∧ ((availInv c7WDb3 ∧ openUnique c7WDb3)
        ∧ ∀ e ∈ c7WDb3.equipment, e.id = 6 → e.is_available = true) :=
  ⟨(@allocationAvailability_inv c7WDb c7WDb2 c7WDb3 9 2 6 60 c7WRaw c7WPe
      ⟨by decide, by decide⟩).1 (by decide),
   (@allocationAvailability_inv c7WDb c7WDb2 c7WDb3 9 2 6 60 c7WRaw c7WPe
      ⟨by decide, by decide⟩).2 (by decide)⟩

end

/-- C8 (amended): deleting an existing equipment unit (as admin) fails
with the ConflictError exactly when some `project_equipment` row for it
joins to a project in {planning, active} — *regardless* of that row's
`returned_date`, which the guard query never checks; otherwise the
deletion succeeds.  (The original claim required the blocking row to be
open, `returned_date IS NULL`; see the counterexample.) -/
theorem deleteEquipment_guard {db : DB} {uid eid : Nat} {u : User} {e : Equipment}
    (hu : findUser db uid = some u) (hactive : u.is_active = true)
    (hrole : u.role = .admin) (he : equipmentById db eid = some e) :
    (deleteEquipment db uid eid
        = .error (createError "Cannot delete equipment that is allocated to active projects" 400)
      ↔ ∃ pe ∈ db.project_equipment, pe.equipment_id = eid
          ∧ ∃ p ∈ db.projects, p.id = pe.project_id
            ∧ (p.status = .planning ∨ p.status = .active))
    ∧ (¬(∃ pe ∈ db.project_equipment, pe.equipment_id = eid
          ∧ ∃ p ∈ db.projects, p.id = pe.project_id
            ∧ (p.status = .planning ∨ p.status = .active)) →
        deleteEquipment db uid eid
          = .ok { db with equipment := db.equipment.filter (fun x => !(x.id == eid)) }) := by
  have hp : protect db uid = .ok u := protect_ok hu hactive
  have hbool : (db.project_equipment.any (fun pe => pe.equipment_id == eid
        && db.projects.any (fun p => p.id == pe.project_id
            && (p.status == ProjectStatus.planning || p.status == ProjectStatus.active))) = true)
      ↔ (∃ pe ∈ db.project_equipment, pe.equipment_id = eid
          ∧ ∃ p ∈ db.projects, p.id = pe.project_id
            ∧ (p.status = .planning ∨ p.status = .active)) := by
    simp [List.any_eq_true, Bool.and_eq_true, Bool.or_eq_true, beq_iff_eq]
  constructor
  · constructor
    · intro herr
      by_cases hb : (db.project_equipment.any (fun pe => pe.equipment_id == eid
          && db.projects.any (fun p => p.id == pe.project_id
              && (p.status == ProjectStatus.planning || p.status == ProjectStatus.active))) = true)
      · exact hbool.mp hb
      · exfalso
        have hb2 : (db.project_equipment.any (fun pe => pe.equipment_id == eid
            && db.projects.any (fun p => p.id == pe.project_id
                && (p.status == ProjectStatus.planning || p.status == ProjectStatus.active))) = false) := by
          simpa using hb
        unfold deleteEquipment at herr
        simp [hp, hrole, he, hb2] at herr
    · intro hex
      have hb := hbool.mpr hex
      unfold deleteEquipment
      simp [hp, hrole, he, hb]
  · intro hnot
    have hb : (db.project_equipment.any (fun pe => pe.equipment_id == eid
        && db.projects.any (fun p => p.id == pe.project_id
            && (p.status == ProjectStatus.planning || p.status == ProjectStatus.active))) = false) := by
      have := (not_congr hbool).mpr hnot
      simpa using this
    unfold deleteEquipment
    simp [hp, hrole, he, hb]

/-- State with equipment 5 whose only allocation row (to the planning
project 1) is already returned. -/
def c8Db : DB := ⟨[⟨9, .admin, true⟩], [⟨5, "Cab", none, true⟩], [⟨1, .planning⟩],
  [⟨1, 1, 5, 1, 50, some 60⟩], [], [], [], [], [], 1, 1, 1, 2⟩

section
set_option allowUnsafeReducibility true
attribute [local semireducible] Rat.mul Rat.add Rat.div Rat.sub Rat.inv

/-- Counterexample to C8 as stated: in `c8Db` no allocation row for
equipment 5 is open (`returned_date IS NULL`) — the single row is
returned — so the claim says the admin's deletion succeeds; but the
guard query joins without a `returned_date` condition and the request
fails with the ConflictError because the row's project is in planning. -/
theorem equipmentDelete_returned_counterexample :
    c8Db.project_equipment.filter (fun pe =>
        pe.equipment_id == 5 && pe.returned_date.isNone) = []
    ∧ projectById c8Db 1 = some ⟨1, .planning⟩
    ∧ equipmentById c8Db 5 = some ⟨5, "Cab", none, true⟩
    ∧ deleteEquipment c8Db 9 5
        = .error (createError "Cannot delete equipment that is allocated to active projects" 400) := by
  decide

/-- Witness for `deleteEquipment_guard` at the returned-row scenario. -/
theorem deleteEquipment_guard_witness :
    (deleteEquipment c8Db 9 5
        = .error (createError "Cannot delete equipment that is allocated to active projects" 400)
      ↔ ∃ pe ∈ c8Db.project_equipment, pe.equipment_id = 5
          ∧ ∃ p ∈ c8Db.projects, p.id = pe.project_id
            ∧ (p.status = .planning ∨ p.status = .active))
    ∧ (¬(∃ pe ∈ c8Db.project_equipment, pe.equipment_id = 5
          ∧ ∃ p ∈ c8Db.projects, p.id = pe.project_id
            ∧ (p.status = .planning ∨ p.status = .active)) →
        deleteEquipment c8Db 9 5
          = .ok { c8Db with equipment := c8Db.equipment.filter (fun x => !(x.id == 5)) }) :=
  @deleteEquipment_guard c8Db 9 5 ⟨9, .admin, true⟩ ⟨5, "Cab", none, true⟩
    (by decide) (by decide) (by decide) (by decide)

end
